import Mathlib

/-!
# Infocusp Projects CLI: a shallow embedding

The CLI is a set of cobra commands; each command is a straight-line sequence of
interactive prompts, filesystem calls, prints and external processes.  The commands
are embedded as functions on an explicit `World` (filesystem, scripted prompt
answers, environment failures and the trace of effects issued so far).
-/

namespace Infocusp

/-! ## Go standard library: `path/filepath` on Unix -/

/-- Split a text at every occurrence of `sep` (as `strings.Split(s, sep)` for a
one-character separator). -/
def splitSep (sep : Char) : List Char → List (List Char)
  | [] => [[]]
  | c :: cs =>
    if c = sep then [] :: splitSep sep cs
    else match splitSep sep cs with
      | [] => [[c]]
      | s :: ss => (c :: s) :: ss

/-- Split a path on the separator `/`. -/
def splitSlash (path : List Char) : List (List Char) :=
  splitSep '/' path

/-- Concatenate path elements with the separator `/` between them (as `strings.Join(elems, "/")`). -/
def joinSlash : List (List Char) → List Char
  | [] => []
  | [s] => s
  | s :: t :: rest => s ++ '/' :: joinSlash (t :: rest)

/-- One element of the scan of `filepath.Clean`.  The elements kept so far are held
most recent first.  Empty elements and `.` are dropped; `..` removes the previous
kept element when there is one that is not itself `..`, is dropped at the root of a
rooted path, and is kept otherwise; any other element is kept. -/
def cleanStep (rooted : Bool) (out : List (List Char)) (seg : List Char) : List (List Char) :=
  if seg = [] ∨ seg = ['.'] then out
  else if seg = ['.', '.'] then
    match out with
    | top :: rest => if top = ['.', '.'] then seg :: out else rest
    | [] => if rooted then [] else [seg]
  else seg :: out

/-- The elements `filepath.Clean` keeps, most recent first. -/
def cleanSegs (rooted : Bool) (segs : List (List Char)) : List (List Char) :=
  segs.foldl (cleanStep rooted) []

/-- Whether a path starts with the separator. -/
def isRooted (path : List Char) : Bool :=
  match path with
  | c :: _ => c = '/'
  | [] => false

/-- The text `filepath.Clean` returns for the kept elements. -/
def renderClean (rooted : Bool) (out : List (List Char)) : List Char :=
  if rooted then '/' :: joinSlash out.reverse
  else if out = [] then ['.']
  else joinSlash out.reverse

/-- Go `filepath.Clean` (Unix): the shortest path name equivalent to `path` by purely
lexical processing; the empty path is cleaned to `.`. -/
def cleanPath (path : String) : String :=
  if path = "" then "."
  else ⟨renderClean (isRooted path.data) (cleanSegs (isRooted path.data) (splitSlash path.data))⟩

/-- Go `filepath.Join` of two elements (Unix): leading empty elements are ignored, the
rest is joined with `/` and cleaned; when every element is empty the result is empty. -/
def joinPath (a b : String) : String :=
  if a ≠ "" then cleanPath (a ++ "/" ++ b)
  else if b ≠ "" then cleanPath b
  else ""

/-! ## The world the commands act on -/

/-- A filesystem entry. -/
inductive Node where
  | dir
  | file (content : String)
  deriving DecidableEq, Repr

/-- The filesystem: what each path names, if anything. -/
abbrev FS := String → Option Node

/-- The filesystem with `path` now naming `n`. -/
def fsUpdate (path : String) (n : Node) (fs : FS) : FS :=
  fun q => if q = path then some n else fs q

/-- What an interactive prompt returned: the selected index (0 for a text prompt),
the text, and the error (`none` is Go's `nil`). -/
structure Answer where
  index : Nat
  value : String
  err : Option String
  deriving DecidableEq, Repr

/-- An effect issued by a command, with its outcome where the effect can fail. -/
inductive Event where
  | prompt (label : String)
  | mkdir (path : String) (ok : Bool)
  | writeFile (path content : String) (ok : Bool)
  | stdout (text : String)
  | exec (argv : List String) (ok : Bool)
  | chdir (dir : String) (ok : Bool)
  | clone (url folder : String) (ok : Bool)
  | stderr (text : String)
  | fatal (msg : String)
  | crash (msg : String)
  deriving DecidableEq, Repr

/-- The state a command runs in.  `fault n` is the failure, if any, that the
environment inflicts on the effect issued as event number `n` (permission denied,
disk full, non-zero exit, network error, ...). -/
structure World where
  fs : FS
  answers : List Answer
  fault : Nat → Option String
  trace : List Event

/-- Append an event to the trace. -/
def World.emit (w : World) (e : Event) : World :=
  { w with trace := w.trace ++ [e] }

/-- The error `os.Mkdir` returns: an environment failure, or the name is empty, or the
path already exists. -/
def mkdirErr (name : String) (w : World) : Option String :=
  match w.fault w.trace.length with
  | some e => some e
  | none =>
    if name = "" then some "mkdir : no such file or directory"
    else if (w.fs name).isSome then some ("mkdir " ++ name ++ ": file exists")
    else none

/-- Go `os.Mkdir(name, perm)`. -/
def osMkdir (name : String) (w : World) : Option String × World :=
  match mkdirErr name w with
  | some e => (some e, w.emit (.mkdir name false))
  | none => (none, { w with fs := fsUpdate name .dir w.fs }.emit (.mkdir name true))

/-- The error `os.WriteFile` returns: an environment failure, or the path is a directory. -/
def writeFileErr (name : String) (w : World) : Option String :=
  match w.fault w.trace.length with
  | some e => some e
  | none => if w.fs name = some .dir then some ("open " ++ name ++ ": is a directory") else none

/-- Go `os.WriteFile(name, data, perm)`: creates or truncates the file and writes
`data`.  A failed call is taken to leave the filesystem as it was. -/
def osWriteFile (name data : String) (w : World) : Option String × World :=
  match writeFileErr name w with
  | some e => (some e, w.emit (.writeFile name data false))
  | none => (none, { w with fs := fsUpdate name (.file data) w.fs }.emit (.writeFile name data true))

/-- Go `fmt.Print*` to standard output, given the formatted text. -/
def fmtPrint (text : String) (w : World) : World :=
  w.emit (.stdout text)

/-- Run of a `promptui.Prompt`: the next scripted answer (an exhausted script is an
end-of-input error with empty text). -/
def promptRun (label : String) (w : World) : Answer × World :=
  match w.answers with
  | a :: rest => (a, { w with answers := rest }.emit (.prompt label))
  | [] => (⟨0, "", some "EOF"⟩, w.emit (.prompt label))

/-- Run of a `promptui.Select`: the next scripted answer. -/
def selectRun (label : String) (_items : List String) (w : World) : Answer × World :=
  promptRun label w

/-! ## Lexical notions used to reason about `filepath.Join` -/

/-- An ordinary path element: non-empty, without separator, neither `.` nor `..`. -/
def plainSeg (s : List Char) : Bool :=
  s ≠ [] && s ≠ ['.'] && s ≠ ['.', '.'] && !s.contains '/'

/-- The elements `filepath.Clean` keeps of a path, most recent first. -/
def kept (a : String) : List (List Char) :=
  cleanSegs (isRooted a.data) (splitSlash a.data)

/-- The shape of what `filepath.Clean` keeps (most recent first): ordinary elements
above a run of `..` elements, the run being empty for a rooted path. -/
def cleanOut (ro : Bool) : List (List Char) → Prop
  | [] => True
  | s :: rest =>
    (plainSeg s = true ∨ (s = ['.', '.'] ∧ ro = false ∧ ∀ t ∈ rest, t = ['.', '.']))
      ∧ cleanOut ro rest

/-- A clean relative path: every element is an ordinary name. -/
def relClean (r : String) : Bool :=
  (splitSlash r.data).all plainSeg

/-! ## create-flask-skeleton (commands/flask_template.go) -/

/-- Content of app/main.py (flask_template.go). -/
def Flask.mainPyContent : String :=
  "from flask import Flask, jsonify\n\napp = Flask(__name__)\n\n@app.route(\x27/\x27)\ndef index():\n    return jsonify(\x7b\"message\": \"Hello, World!\"\x7d)\n\nif __name__ == \"__main__\":\n    app.run(debug=True)\n"

/-- Content of app/models.py (flask_template.go). -/
def Flask.modelsContent : String :=
  "class Item:\n    def __init__(self, name, description, price, tax=None):\n        self.name = name\n        self.description = description\n        self.price = price\n        self.tax = tax\n"

/-- Content of app/schemas.py (flask_template.go). -/
def Flask.schemasContent : String :=
  "class ItemSchema:\n    def __init__(self, name, description, price, tax=None):\n        self.name = name\n        self.description = description\n        self.price = price\n        self.tax = tax\n"

/-- Content of app/routes.py (flask_template.go). -/
def Flask.routesContent : String :=
  "from flask import Blueprint, jsonify, request\nfrom .schemas import ItemSchema\n\nbp = Blueprint(\x27routes\x27, __name__)\n\n@bp.route(\x27/items\x27, methods=[\x27POST\x27])\ndef create_item():\n    data = request.json\n    item = ItemSchema(**data)\n    return jsonify(\x7b\"message\": \"Item created\", \"item\": data\x7d)\n\n@bp.route(\x27/items/<int:item_id>\x27, methods=[\x27GET\x27])\ndef get_item(item_id):\n    return jsonify(\x7b\"message\": \"Get item\", \"item_id\": item_id\x7d)\n"

/-- Initial content of requirements.txt (flask_template.go). -/
def Flask.requirementsContent : String :=
  "flask\n"

/-- Content of Dockerfile (flask_template.go). -/
def Flask.dockerfileContent : String :=
  "FROM python:3.8-slim\n\nWORKDIR /app\n\nCOPY ./app /app\n\nRUN pip install -r requirements.txt\n\nCMD [\"python\", \"main.py\"]\n"

/-- Content of .gitignore (flask_template.go). -/
def Flask.gitignoreContent : String :=
  ".venv/\n__pycache__/\n*.pyc\n"

/-- Content of tests/test_main.py for pytest (flask_template.go). -/
def Flask.pytestTestContent : String :=
  "from app.main import app\nimport pytest\n\n@pytest.fixture\ndef client():\n    app.config[\x27TESTING\x27] = True\n    with app.test_client() as client:\n        yield client\n\ndef test_index(client):\n    rv = client.get(\x27/\x27)\n    assert rv.status_code == 200\n    assert rv.get_json() == \x7b\"message\": \"Hello, World!\"\x7d\n"

/-- Content of tests/test_main.py for unittest (flask_template.go). -/
def Flask.unittestTestContent : String :=
  "import unittest\nfrom app.main import app\n\nclass TestMain(unittest.TestCase):\n    def setUp(self):\n        app.config[\x27TESTING\x27] = True\n        self.client = app.test_client()\n\n    def test_index(self):\n        rv = self.client.get(\x27/\x27)\n        self.assertEqual(rv.status_code, 200)\n        self.assertEqual(rv.get_json(), \x7b\"message\": \"Hello, World!\"\x7d)\n\nif __name__ == \x27__main__\x27:\n    unittest.main()\n"

/-- The body of the `Run` closure of `CreateFlaskSkeletonCmd` after the two prompts
(flask_template.go): create the project tree for `projectName` and the chosen
`testingFramework`. -/
def Flask.scaffold (projectName testingFramework : String) (w : World) : World :=
  -- Create the root project directory
  match osMkdir projectName w with
  | (some err, w) => fmtPrint ("Error creating project directory: " ++ err ++ "\n") w
  | (none, w) =>
    -- Create app directory
    let appDir := joinPath projectName "app"
    let (_, w) := osMkdir appDir w
    let (_, w) := osWriteFile (joinPath appDir "__init__.py") "" w
    let (_, w) := osWriteFile (joinPath appDir "main.py") Flask.mainPyContent w
    let (_, w) := osWriteFile (joinPath appDir "models.py") Flask.modelsContent w
    let (_, w) := osWriteFile (joinPath appDir "schemas.py") Flask.schemasContent w
    let (_, w) := osWriteFile (joinPath appDir "routes.py") Flask.routesContent w
    let requirementsContent := Flask.requirementsContent
    let (_, w) := osWriteFile (joinPath projectName "requirements.txt") requirementsContent w
    let (_, w) := osWriteFile (joinPath projectName "Dockerfile") Flask.dockerfileContent w
    let (_, w) := osWriteFile (joinPath projectName ".gitignore") Flask.gitignoreContent w
    -- Set up testing framework based on user choice
    let w :=
      if testingFramework ≠ "None" then
        let testsDir := joinPath projectName "tests"
        let (_, w) := osMkdir testsDir w
        let (_, w) := osWriteFile (joinPath testsDir "__init__.py") "" w
        let w :=
          if testingFramework = "pytest" then
            let (_, w) := osWriteFile (joinPath testsDir "test_main.py") Flask.pytestTestContent w
            -- Add pytest to requirements.txt
            let requirementsContent := requirementsContent ++ "\npytest\n"
            let (_, w) := osWriteFile (joinPath projectName "requirements.txt") requirementsContent w
            w
          else if testingFramework = "unittest" then
            let (_, w) := osWriteFile (joinPath testsDir "test_main.py") Flask.unittestTestContent w
            w
          else w
        fmtPrint ("Testing framework \x27" ++ testingFramework ++ "\x27 set up successfully in \x27"
          ++ projectName ++ "/tests\x27.\n") w
      else w
    fmtPrint ("Flask skeleton project \x27" ++ projectName ++ "\x27 created successfully!\n") w

/-- The `Run` closure of `CreateFlaskSkeletonCmd`: prompt for the project name and the
testing framework (both errors are discarded), then scaffold. -/
def Flask.run (w : World) : World :=
  let (name, w) := promptRun "Project Name" w
  let projectName := name.value
  let (choice, w) := selectRun "Choose a testing framework" ["unittest", "pytest", "None"] w
  let testingFramework := choice.value
  Flask.scaffold projectName testingFramework w

/-! ## create-fastapi-skeleton (commands/fastapi_template.go) -/

/-- Content of app/main.py (fastapi_template.go). -/
def FastAPI.mainPyContent : String :=
  "from fastapi import FastAPI\nfrom .routes import router\n\napp = FastAPI()\n\napp.include_router(router)\n\n@app.get(\"/\")\ndef read_root():\n    return \x7b\"message\": \"Hello, World!\"\x7d\n"

/-- Content of app/models.py (fastapi_template.go). -/
def FastAPI.modelsContent : String :=
  "from pydantic import BaseModel\n\nclass Item(BaseModel):\n    name: str\n    description: str = None\n    price: float\n    tax: float = None\n"

/-- Content of app/schemas.py (fastapi_template.go). -/
def FastAPI.schemasContent : String :=
  "from pydantic import BaseModel\n\nclass ItemSchema(BaseModel):\n    name: str\n    description: str = None\n    price: float\n    tax: float = None\n"

/-- Content of app/routes.py (fastapi_template.go). -/
def FastAPI.routesContent : String :=
  "from fastapi import APIRouter\nfrom .schemas import ItemSchema\nfrom .models import Item\n\nrouter = APIRouter()\n\n@router.post(\"/items/\")\ndef create_item(item: ItemSchema):\n    return \x7b\"message\": \"Item created\", \"item\": item\x7d\n\n@router.get(\"/items/\x7bitem_id\x7d\")\ndef get_item(item_id: int):\n    return \x7b\"message\": \"Get item\", \"item_id\": item_id\x7d\n"

/-- Initial content of requirements.txt (fastapi_template.go). -/
def FastAPI.requirementsContent : String :=
  "fastapi\nfastapi[standard]\nuvicorn[standard]\n"

/-- Content of Dockerfile (fastapi_template.go). -/
def FastAPI.dockerfileContent : String :=
  "FROM tiangolo/uvicorn-gunicorn-fastapi:python3.8\n\nCOPY ./app /app\n"

/-- Content of .gitignore (fastapi_template.go). -/
def FastAPI.gitignoreContent : String :=
  ".venv/\n__pycache__/\n*.pyc\n"

/-- Content of tests/test_main.py for pytest (fastapi_template.go). -/
def FastAPI.pytestTestContent : String :=
  "from fastapi.testclient import TestClient\nfrom app.main import app\n\nclient = TestClient(app)\n\ndef test_read_root():\n    response = client.get(\"/\")\n    assert response.status_code == 200\n    assert response.json() == \x7b\"message\": \"Hello, World!\"\x7d\n"

/-- Content of tests/test_main.py for unittest (fastapi_template.go). -/
def FastAPI.unittestTestContent : String :=
  "import unittest\nfrom fastapi.testclient import TestClient\nfrom app.main import app\n\nclient = TestClient(app)\n\nclass TestMain(unittest.TestCase):\n    def test_read_root(self):\n        response = client.get(\"/\")\n        self.assertEqual(response.status_code, 200)\n        self.assertEqual(response.json(), \x7b\"message\": \"Hello, World!\"\x7d)\n\nif __name__ == \x27__main__\x27:\n    unittest.main()\n"

/-- The body of the `Run` closure of `CreateFastAPISkeletonCmd` after the two prompts
(fastapi_template.go): create the project tree for `projectName` and the chosen
`testingFramework`. -/
def FastAPI.scaffold (projectName testingFramework : String) (w : World) : World :=
  -- Create the root project directory
  match osMkdir projectName w with
  | (some err, w) => fmtPrint ("Error creating project directory: " ++ err ++ "\n") w
  | (none, w) =>
    -- Create app directory
    let appDir := joinPath projectName "app"
    let (_, w) := osMkdir appDir w
    let (_, w) := osWriteFile (joinPath appDir "__init__.py") "" w
    let (_, w) := osWriteFile (joinPath appDir "main.py") FastAPI.mainPyContent w
    let (_, w) := osWriteFile (joinPath appDir "models.py") FastAPI.modelsContent w
    let (_, w) := osWriteFile (joinPath appDir "schemas.py") FastAPI.schemasContent w
    let (_, w) := osWriteFile (joinPath appDir "routes.py") FastAPI.routesContent w
    let requirementsContent := FastAPI.requirementsContent
    let (_, w) := osWriteFile (joinPath projectName "requirements.txt") requirementsContent w
    let (_, w) := osWriteFile (joinPath projectName "Dockerfile") FastAPI.dockerfileContent w
    let (_, w) := osWriteFile (joinPath projectName ".gitignore") FastAPI.gitignoreContent w
    -- Set up testing framework based on user choice
    let w :=
      if testingFramework ≠ "None" then
        let testsDir := joinPath projectName "tests"
        let (_, w) := osMkdir testsDir w
        let (_, w) := osWriteFile (joinPath testsDir "__init__.py") "" w
        let w :=
          if testingFramework = "pytest" then
            let (_, w) := osWriteFile (joinPath testsDir "test_main.py") FastAPI.pytestTestContent w
            -- Add pytest to requirements.txt
            let requirementsContent := requirementsContent ++ "\npytest\n"
            let (_, w) := osWriteFile (joinPath projectName "requirements.txt") requirementsContent w
            w
          else if testingFramework = "unittest" then
            let (_, w) := osWriteFile (joinPath testsDir "test_main.py") FastAPI.unittestTestContent w
            w
          else w
        fmtPrint ("Testing framework \x27" ++ testingFramework ++ "\x27 set up successfully in \x27"
          ++ projectName ++ "/tests\x27.\n") w
      else w
    fmtPrint ("FastAPI skeleton project \x27" ++ projectName ++ "\x27 created successfully!\n") w

/-- The `Run` closure of `CreateFastAPISkeletonCmd`: prompt for the project name and the
testing framework (both errors are discarded), then scaffold. -/
def FastAPI.run (w : World) : World :=
  let (name, w) := promptRun "Project Name" w
  let projectName := name.value
  let (choice, w) := selectRun "Choose a testing framework" ["unittest", "pytest", "None"] w
  let testingFramework := choice.value
  FastAPI.scaffold projectName testingFramework w

/-! ## The two skeleton commands as instances of one shape -/

/-- The literal texts one skeleton command writes, and the stack name it prints. -/
structure Templates where
  label : String
  mainPy : String
  models : String
  schemas : String
  routes : String
  requirements : String
  dockerfile : String
  gitignore : String
  pytestTest : String
  unittestTest : String

/-- The steps both skeleton commands take once the project root has been created. -/
def skeletonRest (T : Templates) (projectName testingFramework : String) (w : World) : World :=
  let appDir := joinPath projectName "app"
  let w := (osMkdir appDir w).2
  let w := (osWriteFile (joinPath appDir "__init__.py") "" w).2
  let w := (osWriteFile (joinPath appDir "main.py") T.mainPy w).2
  let w := (osWriteFile (joinPath appDir "models.py") T.models w).2
  let w := (osWriteFile (joinPath appDir "schemas.py") T.schemas w).2
  let w := (osWriteFile (joinPath appDir "routes.py") T.routes w).2
  let w := (osWriteFile (joinPath projectName "requirements.txt") T.requirements w).2
  let w := (osWriteFile (joinPath projectName "Dockerfile") T.dockerfile w).2
  let w := (osWriteFile (joinPath projectName ".gitignore") T.gitignore w).2
  let w :=
    if testingFramework ≠ "None" then
      let testsDir := joinPath projectName "tests"
      let w := (osMkdir testsDir w).2
      let w := (osWriteFile (joinPath testsDir "__init__.py") "" w).2
      let w :=
        if testingFramework = "pytest" then
          let w := (osWriteFile (joinPath testsDir "test_main.py") T.pytestTest w).2
          (osWriteFile (joinPath projectName "requirements.txt")
            (T.requirements ++ "\npytest\n") w).2
        else if testingFramework = "unittest" then
          (osWriteFile (joinPath testsDir "test_main.py") T.unittestTest w).2
        else w
      fmtPrint ("Testing framework \x27" ++ testingFramework ++ "\x27 set up successfully in \x27"
        ++ projectName ++ "/tests\x27.\n") w
    else w
  fmtPrint (T.label ++ " skeleton project \x27" ++ projectName ++ "\x27 created successfully!\n") w

/-- The common shape of `Flask.scaffold` and `FastAPI.scaffold`. -/
def skeleton (T : Templates) (projectName testingFramework : String) (w : World) : World :=
  match osMkdir projectName w with
  | (some err, w) => fmtPrint ("Error creating project directory: " ++ err ++ "\n") w
  | (none, w) => skeletonRest T projectName testingFramework w

/-- The texts of `create-flask-skeleton`. -/
def Flask.templates : Templates :=
  { label := "Flask", mainPy := Flask.mainPyContent, models := Flask.modelsContent,
    schemas := Flask.schemasContent, routes := Flask.routesContent,
    requirements := Flask.requirementsContent, dockerfile := Flask.dockerfileContent,
    gitignore := Flask.gitignoreContent, pytestTest := Flask.pytestTestContent,
    unittestTest := Flask.unittestTestContent }

/-- The texts of `create-fastapi-skeleton`. -/
def FastAPI.templates : Templates :=
  { label := "FastAPI", mainPy := FastAPI.mainPyContent, models := FastAPI.modelsContent,
    schemas := FastAPI.schemasContent, routes := FastAPI.routesContent,
    requirements := FastAPI.requirementsContent, dockerfile := FastAPI.dockerfileContent,
    gitignore := FastAPI.gitignoreContent, pytestTest := FastAPI.pytestTestContent,
    unittestTest := FastAPI.unittestTestContent }

/-! ## create-react-skeleton (commands/react_template.go) -/

/-- Go `strings.ToLower` on the ASCII letters.  (Go also lowers non-ASCII capitals;
no such letter lowers to `y`, `e` or `s`, so comparisons with `"yes"` are unaffected.) -/
def toLower (s : String) : String :=
  ⟨s.data.map Char.toLower⟩

/-- Go `exec.Command(argv...).Run()`: the process is started whatever happened before;
a non-zero exit or a failure to start is the returned error. -/
def execRun (argv : List String) (w : World) : Option String × World :=
  match w.fault w.trace.length with
  | some e => (some e, w.emit (.exec argv false))
  | none => (none, w.emit (.exec argv true))

/-- Go `os.Chdir(dir)`. -/
def osChdir (dir : String) (w : World) : Option String × World :=
  match w.fault w.trace.length with
  | some e => (some e, w.emit (.chdir dir false))
  | none => (none, w.emit (.chdir dir true))

/-- The function `CreateReactApp`: run `create-react-app`, enter the project directory
and install the selected extras.  No result of an external command is inspected. -/
def CreateReactApp (projectName useTailwind useLinting testingFramework useTypeScript : String)
    (w : World) : World :=
  -- Determine whether to create the React app with or without TypeScript
  let createAppCmd :=
    if toLower useTypeScript = "yes" then
      ["npx", "create-react-app", projectName, "--template", "typescript"]
    else
      ["npx", "create-react-app", projectName]
  let (_, w) := execRun createAppCmd w
  -- Change directory to the newly created project
  let (_, w) := osChdir projectName w
  let w :=
    if toLower useTailwind = "yes" then
      let w := fmtPrint "Installing Tailwind CSS...\n" w
      let (_, w) := execRun ["npm", "install", "-D", "tailwindcss", "postcss", "autoprefixer"] w
      let (_, w) := execRun ["npx", "tailwindcss", "init"] w
      w
    else w
  let w :=
    if toLower useLinting = "yes" then
      let w := fmtPrint "Setting up ESLint...\n" w
      let (_, w) := execRun ["npm", "install", "-D", "eslint"] w
      let (_, w) := execRun ["npx", "eslint", "--init"] w
      w
    else w
  let w :=
    if testingFramework = "Jest" then
      let w := fmtPrint "Setting up Jest...\n" w
      let (_, w) := execRun ["npm", "install", "--save-dev", "jest"] w
      w
    else if testingFramework = "Mocha" then
      let w := fmtPrint "Setting up Mocha...\n" w
      let (_, w) := execRun ["npm", "install", "--save-dev", "mocha"] w
      w
    else w
  fmtPrint ("Project \x27" ++ projectName ++ "\x27 created successfully!\n") w

/-- The `Run` closure of `CreateReactAppCmd`: five prompts, every error discarded, then
`CreateReactApp` on the texts returned. -/
def React.run (w : World) : World :=
  let (a, w) := promptRun "Project Name" w
  let projectName := a.value
  let (a, w) := selectRun "Do you want to include Tailwind CSS?" ["Yes", "No"] w
  let useTailwind := a.value
  let (a, w) := selectRun "Do you want to include Linting (ESLint)?" ["Yes", "No"] w
  let useLinting := a.value
  let (a, w) := selectRun "Choose a testing framework" ["Jest", "Mocha", "None"] w
  let testingFramework := a.value
  let (a, w) := selectRun "Do you want to use TypeScript?" ["Yes", "No"] w
  let useTypeScript := a.value
  CreateReactApp projectName useTailwind useLinting testingFramework useTypeScript w

/-! ## clone-repo (commands/clone_from_repo.go) -/

/-- Go `log.Fatalf`: log the message and exit the process. -/
def logFatal (msg : String) (w : World) : World :=
  w.emit (.fatal msg)

/-- The library call `git.PlainClone(folderName, false, options)` with `options.URL = repoURL`. -/
def gitPlainClone (folderName repoURL : String) (w : World) : Option String × World :=
  match w.fault w.trace.length with
  | some e => (some e, w.emit (.clone repoURL folderName false))
  | none => (none, { w with fs := fsUpdate folderName .dir w.fs }.emit (.clone repoURL folderName true))

/-- The function `CloneRepo`: clone and hand back the error. -/
def CloneRepo (repoURL folderName : String) (w : World) : Option String × World :=
  gitPlainClone folderName repoURL w

/-- The function `PromptRepositorySelection`; the two repository URLs are the constants
`constants.OllamaRepo` and `constants.GoRepo`.  The result is `none` when indexing
`repoNames` goes out of range (a Go run-time panic). -/
def PromptRepositorySelection (OllamaRepo GoRepo : String) (w : World) :
    Option (String × Option String) × World :=
  let repoNames := ["Ollama", "Go"]
  let repoMap := [("Ollama", OllamaRepo), ("Go", GoRepo)]
  let (a, w) := selectRun "Select Repository to Clone" repoNames w
  match a.err with
  | some err => (some ("", some err), w)
  | none =>
    match repoNames.get? a.index with
    | none => (none, w.emit (.crash "index out of range"))
    | some selectedRepoName => (some ((repoMap.lookup selectedRepoName).getD "", none), w)

/-- The `Run` closure of `CloneRepoCmd`. -/
def Clone.run (OllamaRepo GoRepo : String) (w : World) : World :=
  -- Step 1: Prompt the user to select a repository
  match PromptRepositorySelection OllamaRepo GoRepo w with
  | (none, w) => w
  | (some (_, some err), w) => logFatal ("Repository selection failed: " ++ err) w
  | (some (repoURL, none), w) =>
    -- Step 2: Prompt the user for the folder name
    let (a, w) := promptRun "Enter Folder Name" w
    match a.err with
    | some err => logFatal ("Folder name input failed: " ++ err) w
    | none =>
      let folderName := a.value
      -- Step 3: Clone the repository
      match CloneRepo repoURL folderName w with
      | (some err, w) => logFatal ("Failed to clone repository: " ++ err) w
      | (none, w) => fmtPrint ("Successfully cloned repository to " ++ folderName ++ "\n") w

/-! ## The cobra commands and `main` (main.go) -/

/-- A `cobra.Command`: its name, its short description, what it runs and its subcommands. -/
inductive Command where
  | mk (Use Short : String) (Run : Option (World → World)) (commands : List Command)

/-- The name a command is invoked by. -/
def Command.Use : Command → String
  | .mk u _ _ _ => u

/-- The action of a command, if it has one. -/
def Command.Run : Command → Option (World → World)
  | .mk _ _ r _ => r

/-- The registered subcommands, in registration order. -/
def Command.Commands : Command → List Command
  | .mk _ _ _ cs => cs

/-- Cobra `AddCommand`: register a subcommand. -/
def Command.AddCommand : Command → Command → Command
  | .mk u s r cs, sub => .mk u s r (cs ++ [sub])

/-- Cobra `Execute` for a command line of at most one word: run the subcommand whose
name is the first argument; an unknown name is reported and nothing runs. -/
def Command.Execute (root : Command) (args : List String) (w : World) : World :=
  match args with
  | [] => w
  | name :: _ =>
    match root.Commands.find? (fun c => c.Use = name) with
    | some c =>
      match c.Run with
      | some run => run w
      | none => w
    | none => w.emit (.stderr ("Error: unknown command \"" ++ name ++ "\" for \"" ++ root.Use ++ "\"\n"))

/-- The command `CreateReactAppCmd()`. -/
def CreateReactAppCmd : Command :=
  .mk "create-react-skeleton" "Create a React app with custom options" (some React.run) []

/-- The command `CreateFlaskSkeletonCmd()`. -/
def CreateFlaskSkeletonCmd : Command :=
  .mk "create-flask-skeleton"
    "Create a Flask project structure with dummy models, schemas, routes, and tests"
    (some Flask.run) []

/-- The command `CreateFastAPISkeletonCmd()`. -/
def CreateFastAPISkeletonCmd : Command :=
  .mk "create-fastapi-skeleton"
    "Create a FastAPI project structure with dummy models, schemas, routes, and tests"
    (some FastAPI.run) []

/-- The command `CloneRepoCmd()`. -/
def CloneRepoCmd (OllamaRepo GoRepo : String) : Command :=
  .mk "clone-repo" "Clone a repository" (some (Clone.run OllamaRepo GoRepo)) []

/-- The root command as `main` builds it: created without subcommands, then three
`AddCommand` calls. -/
def rootCmd : Command :=
  let rootCmd : Command := .mk "infocusp" 
    "Welcome to Infocusp Projects CLI!\nThis powerful and intuitive tool helps you quickly bootstrap skeletons for different tech stacks, \ncreate demo projects, and streamline development workflows.\n\nWith Infocusp Projects CLI, you can:\n- 🚀 Scaffold full-stack applications in minutes.\n- 🔥 Generate skeletons for popular frameworks like React, FastAPI, and more.\n- 🧰 Customize your projects with options like Tailwind CSS, TypeScript, linting, testing frameworks, and Docker.\n- 🛠️ Explore ready-to-use demo projects for rapid prototyping.\n\nMore commands and features are on the way!\n\nGet started by running one of the commands and let Infocusp Projects CLI handle the heavy lifting so you can focus on building something awesome!\n\nHappy Coding! 😎\n\t\t"
    none []
  -- Add command for creating a React app.
  let rootCmd := rootCmd.AddCommand CreateReactAppCmd
  -- Add command for creating a Flask skeleton project.
  let rootCmd := rootCmd.AddCommand CreateFlaskSkeletonCmd
  -- Add command for creating a FastAPI skeleton project.
  let rootCmd := rootCmd.AddCommand CreateFastAPISkeletonCmd
  rootCmd

/-- The function `main`: build the root command and execute it on the command line. -/
def main (args : List String) (w : World) : World :=
  rootCmd.Execute args w

/-! ## Both skeleton commands at once -/

/-- The two Python stacks. -/
inductive Stack where
  | flask
  | fastapi
  deriving DecidableEq, Repr

/-- The texts of a stack. -/
def templatesOf : Stack → Templates
  | .flask => Flask.templates
  | .fastapi => FastAPI.templates

/-- The scaffolding step of the command for a stack. -/
def scaffoldOf : Stack → String → String → World → World
  | .flask => Flask.scaffold
  | .fastapi => FastAPI.scaffold

/-! ## Observations on a run -/

/-- The events a run from `w` to `w'` issued (the trace only grows). -/
def issued (w w' : World) : List Event :=
  w'.trace.drop w.trace.length

/-- Whether the effect went through (effects that cannot fail always do). -/
def Event.succeeded : Event → Bool
  | .mkdir _ ok => ok
  | .writeFile _ _ ok => ok
  | .exec _ ok => ok
  | .chdir _ ok => ok
  | .clone _ _ ok => ok
  | _ => true

/-- The file writes attempted, as (path, content), in order. -/
def writesOf : List Event → List (String × String)
  | [] => []
  | .writeFile p c _ :: rest => (p, c) :: writesOf rest
  | _ :: rest => writesOf rest

/-- A filesystem operation attempted, without its outcome. -/
inductive FsOp where
  | mkdir (path : String)
  | write (path content : String)
  deriving DecidableEq, Repr

/-- The filesystem operations attempted, in order. -/
def fsOpsOf : List Event → List FsOp
  | [] => []
  | .mkdir p _ :: rest => .mkdir p :: fsOpsOf rest
  | .writeFile p c _ :: rest => .write p c :: fsOpsOf rest
  | _ :: rest => fsOpsOf rest

/-- The external commands started, in order. -/
def execsOf : List Event → List (List String)
  | [] => []
  | .exec argv _ :: rest => argv :: execsOf rest
  | _ :: rest => execsOf rest

/-- The texts printed on standard output, in order. -/
def stdoutOf : List Event → List String
  | [] => []
  | .stdout t :: rest => t :: stdoutOf rest
  | _ :: rest => stdoutOf rest

/-- The lines of a text. -/
def linesOf (content : String) : List String :=
  (splitSep '\n' content.data).map String.mk

/-- A world with an empty filesystem, no scripted answers and no environment failure. -/
def blank : World :=
  { fs := fun _ => none, answers := [], fault := fun _ => none, trace := [] }

/-! ## The skeleton commands as straight-line programs -/

/-- One step of a command whose result the command does not inspect. -/
inductive Instr where
  | mkdir (path : String)
  | write (path content : String)
  | print (text : String)
  | exec (argv : List String)
  | chdir (dir : String)
  deriving DecidableEq, Repr

/-- Perform one step, discarding its result as the commands do. -/
def Instr.run : Instr → World → World
  | .mkdir p, w => (osMkdir p w).2
  | .write p c, w => (osWriteFile p c w).2
  | .print t, w => fmtPrint t w
  | .exec argv, w => (execRun argv w).2
  | .chdir d, w => (osChdir d w).2

/-- Perform the steps in order. -/
def runAll (is : List Instr) (w : World) : World :=
  is.foldl (fun w i => i.run w) w

/-- The event a step leaves in the trace when run in `w`. -/
def Instr.event : Instr → World → Event
  | .mkdir p, w => .mkdir p (mkdirErr p w).isNone
  | .write p c, w => .writeFile p c (writeFileErr p w).isNone
  | .print t, _ => .stdout t
  | .exec argv, w => .exec argv (w.fault w.trace.length).isNone
  | .chdir d, w => .chdir d (w.fault w.trace.length).isNone

/-- The events the steps leave in the trace when run from `w`. -/
def runEvents : List Instr → World → List Event
  | [], _ => []
  | i :: rest, w => i.event w :: runEvents rest (i.run w)

/-- The effect of a successful step on the filesystem. -/
def Instr.apply : Instr → FS → FS
  | .mkdir p, fs => fsUpdate p .dir fs
  | .write p c, fs => fsUpdate p (.file c) fs
  | _, fs => fs

/-- The path a step acts on. -/
def Instr.path? : Instr → Option String
  | .mkdir p => some p
  | .write p _ => some p
  | _ => none

/-- The filesystem operation of a step. -/
def Instr.fsOp? : Instr → Option FsOp
  | .mkdir p => some (.mkdir p)
  | .write p c => some (.write p c)
  | _ => none

/-- The file write of a step. -/
def Instr.write? : Instr → Option (String × String)
  | .write p c => some (p, c)
  | _ => none

/-- The external command a step starts. -/
def Instr.argv? : Instr → Option (List String)
  | .exec argv => some argv
  | _ => none

/-- The text a step prints. -/
def Instr.text? : Instr → Option String
  | .print t => some t
  | _ => none

/-- The steps for the chosen testing framework (nothing for `None`). -/
def testPlan (T : Templates) (projectName testingFramework : String) : List Instr :=
  if testingFramework = "None" then []
  else
    [.mkdir (joinPath projectName "tests"),
     .write (joinPath (joinPath projectName "tests") "__init__.py") ""]
    ++ (if testingFramework = "pytest" then
          [.write (joinPath (joinPath projectName "tests") "test_main.py") T.pytestTest,
           .write (joinPath projectName "requirements.txt") (T.requirements ++ "\npytest\n")]
        else if testingFramework = "unittest" then
          [.write (joinPath (joinPath projectName "tests") "test_main.py") T.unittestTest]
        else [])
    ++ [.print ("Testing framework \x27" ++ testingFramework
          ++ "\x27 set up successfully in \x27" ++ projectName ++ "/tests\x27.\n")]

/-- The steps that do not depend on the testing framework, after the root creation. -/
def basePlan (T : Templates) (projectName : String) : List Instr :=
  [.mkdir (joinPath projectName "app"),
   .write (joinPath (joinPath projectName "app") "__init__.py") "",
   .write (joinPath (joinPath projectName "app") "main.py") T.mainPy,
   .write (joinPath (joinPath projectName "app") "models.py") T.models,
   .write (joinPath (joinPath projectName "app") "schemas.py") T.schemas,
   .write (joinPath (joinPath projectName "app") "routes.py") T.routes,
   .write (joinPath projectName "requirements.txt") T.requirements,
   .write (joinPath projectName "Dockerfile") T.dockerfile,
   .write (joinPath projectName ".gitignore") T.gitignore]

/-- The closing success message. -/
def donePlan (T : Templates) (projectName : String) : List Instr :=
  [.print (T.label ++ " skeleton project \x27" ++ projectName ++ "\x27 created successfully!\n")]

/-- All steps of a skeleton command whose root creation succeeds. -/
def fullPlan (T : Templates) (projectName testingFramework : String) : List Instr :=
  .mkdir projectName ::
    (basePlan T projectName ++ testPlan T projectName testingFramework ++ donePlan T projectName)

/-- What a successful step leaves at its path. -/
def Instr.node? : Instr → Option Node
  | .mkdir _ => some .dir
  | .write _ c => some (.file c)
  | _ => none

/-- The steps of `CreateReactApp`. -/
def reactPlan (projectName useTailwind useLinting testingFramework useTypeScript : String) :
    List Instr :=
  [.exec (if toLower useTypeScript = "yes" then
            ["npx", "create-react-app", projectName, "--template", "typescript"]
          else ["npx", "create-react-app", projectName]),
   .chdir projectName]
  ++ (if toLower useTailwind = "yes" then
        [.print "Installing Tailwind CSS...\n",
         .exec ["npm", "install", "-D", "tailwindcss", "postcss", "autoprefixer"],
         .exec ["npx", "tailwindcss", "init"]]
      else [])
  ++ (if toLower useLinting = "yes" then
        [.print "Setting up ESLint...\n",
         .exec ["npm", "install", "-D", "eslint"],
         .exec ["npx", "eslint", "--init"]]
      else [])
  ++ (if testingFramework = "Jest" then
        [.print "Setting up Jest...\n", .exec ["npm", "install", "--save-dev", "jest"]]
      else if testingFramework = "Mocha" then
        [.print "Setting up Mocha...\n", .exec ["npm", "install", "--save-dev", "mocha"]]
      else [])
  ++ [.print ("Project \x27" ++ projectName ++ "\x27 created successfully!\n")]

/-- The file writes of a skeleton command relative to the project root, with contents. -/
def relWrites (T : Templates) (testingFramework : String) : List (String × String) :=
  [("app/__init__.py", ""),
   ("app/main.py", T.mainPy),
   ("app/models.py", T.models),
   ("app/schemas.py", T.schemas),
   ("app/routes.py", T.routes),
   ("requirements.txt", T.requirements),
   ("Dockerfile", T.dockerfile),
   (".gitignore", T.gitignore)]
  ++ (if testingFramework = "None" then []
      else ("tests/__init__.py", "") ::
        (if testingFramework = "pytest" then
          [("tests/test_main.py", T.pytestTest),
           ("requirements.txt", T.requirements ++ "\npytest\n")]
         else if testingFramework = "unittest" then
          [("tests/test_main.py", T.unittestTest)]
         else []))

/-- The elements of the cleaned path, in order. -/
def cleanElems (a : String) : List (List Char) :=
  (kept a).reverse

/-- A world in which the path `proj` is already taken. -/
def occupied : World :=
  { fs := fsUpdate "proj" .dir (fun _ => none), answers := [], fault := fun _ => none,
    trace := [] }

/-- A world whose disk fills up right after the first effect: every later one fails. -/
def diskFull : World :=
  { fs := fun _ => none, answers := [],
    fault := fun n => if n = 0 then none else some "no space left on device", trace := [] }

/-- A world in which the user gives the project name `proj` and then aborts the
testing-framework selection (the prompt returns index 0, empty text and an error). -/
def aborted : World :=
  { fs := fun _ => none,
    answers := [⟨0, "proj", none⟩, ⟨0, "", some "^C"⟩],
    fault := fun _ => none, trace := [] }

/-! ## Lexical facts about `filepath.Join` -/

theorem splitSep_ne_nil (sep : Char) (l : List Char) : splitSep sep l ≠ [] := by
  cases l with
  | nil => simp [splitSep]
  | cons c cs =>
    simp only [splitSep]
    split
    · simp
    · split <;> simp

theorem splitSep_append (sep : Char) (x y : List Char) :
    splitSep sep (x ++ sep :: y) = splitSep sep x ++ splitSep sep y := by
  induction x with
  | nil => simp [splitSep]
  | cons c cs ih =>
    by_cases hc : c = sep
    · simp [splitSep, hc, ih]
    · rw [List.cons_append]
      simp only [splitSep, hc, if_false]
      rw [ih]
      cases h : splitSep sep cs with
      | nil => exact absurd h (splitSep_ne_nil sep cs)
      | cons s ss => simp

theorem splitSep_of_not_mem (sep : Char) (s : List Char) (h : sep ∉ s) :
    splitSep sep s = [s] := by
  induction s with
  | nil => simp [splitSep]
  | cons c cs ih =>
    have hc : c ≠ sep := fun e => h (by simp [e])
    have hcs : sep ∉ cs := fun e => h (by simp [e])
    simp [splitSep, hc, ih hcs]

theorem splitSlash_joinSlash (l : List (List Char)) (hne : l ≠ [])
    (h : ∀ s ∈ l, '/' ∉ s) : splitSlash (joinSlash l) = l := by
  induction l with
  | nil => exact absurd rfl hne
  | cons s t ih =>
    cases t with
    | nil => simpa [joinSlash, splitSlash] using splitSep_of_not_mem '/' s (h s (by simp))
    | cons u rest =>
      have h1 := splitSep_of_not_mem '/' s (h s (by simp))
      have h2 := ih (by simp) (fun x hx => h x (by simp [hx]))
      simp only [joinSlash, splitSlash] at h2 ⊢
      rw [splitSep_append, h1, h2]
      rfl

theorem not_mem_of_mem_splitSep (sep : Char) (l : List Char) :
    ∀ s ∈ splitSep sep l, sep ∉ s := by
  induction l with
  | nil => simp [splitSep]
  | cons c cs ih =>
    by_cases hc : c = sep
    · simp only [splitSep, hc, if_true]
      intro s hs
      rcases List.mem_cons.1 hs with rfl | hs
      · simp
      · exact ih s hs
    · simp only [splitSep, hc, if_false]
      cases h : splitSep sep cs with
      | nil => exact absurd h (splitSep_ne_nil sep cs)
      | cons t ts =>
        rw [h] at ih
        intro s hs
        rcases List.mem_cons.1 hs with rfl | hs
        · intro hm
          rcases List.mem_cons.1 hm with e | hm
          · exact hc e.symm
          · exact ih t (by simp) hm
        · exact ih s (by simp [hs])

theorem joinSlash_cons_cons (c : Char) (s : List Char) (ss : List (List Char)) :
    joinSlash ((c :: s) :: ss) = c :: joinSlash (s :: ss) := by
  cases ss <;> simp [joinSlash]

theorem joinSlash_splitSlash (l : List Char) : joinSlash (splitSlash l) = l := by
  unfold splitSlash
  induction l with
  | nil => simp [splitSep, joinSlash]
  | cons c cs ih =>
    by_cases hc : c = '/'
    · simp only [splitSep, hc, if_true]
      cases h : splitSep '/' cs with
      | nil => exact absurd h (splitSep_ne_nil _ cs)
      | cons t ts => rw [h] at ih; simp [joinSlash, ih]
    · simp only [splitSep, hc, if_false]
      cases h : splitSep '/' cs with
      | nil => exact absurd h (splitSep_ne_nil _ cs)
      | cons t ts => rw [h] at ih; simp [joinSlash_cons_cons, ih]

theorem cleanPath_eq (a : String) :
    cleanPath a = ⟨renderClean (isRooted a.data) (kept a)⟩ := by
  unfold cleanPath
  split
  · next h => subst h; rfl
  · rfl

theorem cleanStep_plain (ro : Bool) (out : List (List Char)) (s : List Char)
    (h : plainSeg s = true) : cleanStep ro out s = s :: out := by
  simp only [plainSeg, Bool.and_eq_true, decide_eq_true_eq, ne_eq] at h
  simp [cleanStep, h.1.1.1, h.1.1.2, h.1.2]

theorem foldl_cleanStep_plain (ro : Bool) (rs : List (List Char))
    (h : ∀ s ∈ rs, plainSeg s = true) (out : List (List Char)) :
    rs.foldl (cleanStep ro) out = rs.reverse ++ out := by
  induction rs generalizing out with
  | nil => simp
  | cons r rest ih =>
    simp only [List.foldl_cons, List.reverse_cons, List.append_assoc, List.singleton_append]
    rw [cleanStep_plain ro out r (h r (by simp)), ih (fun s hs => h s (by simp [hs]))]

theorem cleanStep_cleanOut (ro : Bool) (out : List (List Char)) (s : List Char)
    (hs : '/' ∉ s) (h : cleanOut ro out) : cleanOut ro (cleanStep ro out s) := by
  unfold cleanStep
  split
  · exact h
  · next h1 =>
    split
    · next h2 =>
      subst h2
      cases out with
      | nil =>
        cases ro <;> simp [cleanOut]
      | cons top rest =>
        simp only
        split
        · next h3 =>
          subst h3
          rcases h.1 with hp | ⟨_, hro, hall⟩
          · exact absurd hp (by decide)
          · exact ⟨Or.inr ⟨rfl, hro, by simpa using hall⟩, h⟩
        · exact h.2
    · next h2 =>
      refine ⟨Or.inl ?_, h⟩
      simp only [not_or] at h1
      simp [plainSeg, h1.1, h1.2, h2, hs]

theorem foldl_cleanStep_cleanOut (ro : Bool) (segs : List (List Char))
    (hs : ∀ s ∈ segs, '/' ∉ s) (out : List (List Char)) (h : cleanOut ro out) :
    cleanOut ro (segs.foldl (cleanStep ro) out) := by
  induction segs generalizing out with
  | nil => exact h
  | cons s rest ih =>
    exact ih (fun t ht => hs t (by simp [ht])) _
      (cleanStep_cleanOut ro out s (hs s (by simp)) h)

theorem kept_cleanOut (a : String) : cleanOut (isRooted a.data) (kept a) :=
  foldl_cleanStep_cleanOut _ _ (not_mem_of_mem_splitSep '/' a.data) [] trivial

theorem cleanOut_push (ro : Bool) (rs out : List (List Char))
    (h : ∀ s ∈ rs, plainSeg s = true) (ho : cleanOut ro out) :
    cleanOut ro (rs.reverse ++ out) := by
  induction rs generalizing out with
  | nil => simpa using ho
  | cons r rest ih =>
    simp only [List.reverse_cons, List.append_assoc, List.singleton_append]
    exact ih (r :: out) (fun s hs => h s (by simp [hs])) ⟨Or.inl (h r (by simp)), ho⟩

theorem cleanOut_seg {ro : Bool} {out : List (List Char)} (h : cleanOut ro out) :
    ∀ s ∈ out, s ≠ [] ∧ '/' ∉ s := by
  induction out with
  | nil => simp
  | cons t rest ih =>
    intro s hs
    rcases List.mem_cons.1 hs with rfl | hs
    · rcases h.1 with hp | ⟨he, _, _⟩
      · simp only [plainSeg, Bool.and_eq_true, decide_eq_true_eq, ne_eq, Bool.not_eq_true',
          List.contains_eq_any_beq, List.any_eq_false, beq_iff_eq] at hp
        refine ⟨hp.1.1.1, fun hm => ?_⟩
        simpa using hp.2 _ hm
      · subst he; decide
    · exact ih h.2 s hs

theorem foldl_cleanStep_reverse (ro : Bool) (out : List (List Char)) (h : cleanOut ro out) :
    out.reverse.foldl (cleanStep ro) [] = out := by
  induction out with
  | nil => rfl
  | cons s rest ih =>
    rw [List.reverse_cons, List.foldl_append, ih h.2]
    simp only [List.foldl_cons, List.foldl_nil]
    rcases h.1 with hp | ⟨he, hro, hall⟩
    · exact cleanStep_plain ro rest s hp
    · subst he; subst hro
      cases rest with
      | nil => rfl
      | cons top r =>
        have := hall top (by simp)
        subst this
        rfl

theorem isRooted_renderClean (ro : Bool) (out : List (List Char)) (h : cleanOut ro out) :
    isRooted (renderClean ro out) = ro := by
  cases ro with
  | true => simp [renderClean, isRooted]
  | false =>
    simp only [renderClean, Bool.false_eq_true, if_false]
    split
    · simp [isRooted]
    · next hne =>
      cases hr : out.reverse with
      | nil => simp at hr; exact absurd hr hne
      | cons b more =>
        have hb := cleanOut_seg h b (by
          have : b ∈ out.reverse := by simp [hr]
          simpa using this)
        cases b with
        | nil => exact absurd rfl hb.1
        | cons c cs =>
          rw [joinSlash_cons_cons]
          have : c ≠ '/' := fun e => hb.2 (by simp [e])
          simp [isRooted, this]

theorem cleanSegs_renderClean (ro : Bool) (out : List (List Char)) (h : cleanOut ro out) :
    cleanSegs ro (splitSlash (renderClean ro out)) = out := by
  have hsplit : out ≠ [] → splitSlash (joinSlash out.reverse) = out.reverse := fun hne =>
    splitSlash_joinSlash _ (by simpa using hne) (fun s hs => (cleanOut_seg h s (by simpa using hs)).2)
  cases ro with
  | true =>
    simp only [renderClean, if_true]
    by_cases hne : out = []
    · subst hne; rfl
    · have : splitSlash ('/' :: joinSlash out.reverse) = [] :: splitSlash (joinSlash out.reverse) := by
        simp [splitSlash, splitSep]
      rw [this, hsplit hne]
      simp only [cleanSegs, List.foldl_cons]
      have : cleanStep true [] [] = [] := rfl
      rw [this]
      exact foldl_cleanStep_reverse true out h
  | false =>
    simp only [renderClean, Bool.false_eq_true, if_false]
    split
    · next hne => subst hne; rfl
    · next hne =>
      rw [hsplit hne]
      exact foldl_cleanStep_reverse false out h

theorem kept_mk_renderClean (ro : Bool) (out : List (List Char)) (h : cleanOut ro out) :
    kept ⟨renderClean ro out⟩ = out := by
  unfold kept
  simp only [isRooted_renderClean ro out h]
  exact cleanSegs_renderClean ro out h

theorem relClean_data {r : String} (h : relClean r = true) :
    r.data ≠ [] ∧ isRooted r.data = false := by
  unfold relClean at h
  rw [List.all_eq_true] at h
  cases hd : r.data with
  | nil =>
    rw [hd] at h
    exact absurd (h [] (by simp [splitSlash, splitSep])) (by decide)
  | cons c cs =>
    refine ⟨by simp, ?_⟩
    by_cases hc : c = '/'
    · rw [hd] at h
      exact absurd (h [] (by simp [splitSlash, splitSep, hc])) (by decide)
    · simp [isRooted, hc]

theorem joinPath_rel (a r : String) (h : relClean r = true) :
    joinPath a r
      = ⟨renderClean (isRooted a.data) ((splitSlash r.data).reverse ++ kept a)⟩ := by
  have hr := relClean_data h
  have hall : ∀ s ∈ splitSlash r.data, plainSeg s = true := by
    simpa [relClean, List.all_eq_true] using h
  have hrne : r ≠ "" := fun e => hr.1 (by rw [e])
  unfold joinPath
  by_cases ha : a = ""
  · subst ha
    simp only [ne_eq, not_true_eq_false, if_false, hrne, not_false_eq_true, if_true]
    rw [cleanPath_eq]
    have h1 : kept r = (splitSlash r.data).reverse ++ kept "" := by
      have : kept "" = [] := rfl
      rw [this]
      unfold kept cleanSegs
      rw [foldl_cleanStep_plain _ _ hall]
    have h2 : isRooted ("" : String).data = false := rfl
    rw [h1, hr.2, h2]
  · simp only [ne_eq, ha, not_false_eq_true, if_true]
    rw [cleanPath_eq]
    have hd : (a ++ "/" ++ r).data = a.data ++ '/' :: r.data := by simp
    have hro : isRooted (a.data ++ '/' :: r.data) = isRooted a.data := by
      cases hda : a.data with
      | nil => exact absurd (String.ext hda) ha
      | cons c cs => rfl
    unfold kept
    rw [hd, hro]
    unfold cleanSegs
    have hsp : splitSlash (a.data ++ '/' :: r.data) = splitSlash a.data ++ splitSlash r.data :=
      splitSep_append '/' _ _
    rw [hsp, List.foldl_append, foldl_cleanStep_plain _ _ hall]

theorem kept_joinPath (a r : String) (h : relClean r = true) :
    kept (joinPath a r) = (splitSlash r.data).reverse ++ kept a := by
  rw [joinPath_rel a r h]
  exact kept_mk_renderClean _ _ (cleanOut_push _ _ _
    (by simpa [relClean, List.all_eq_true] using h) (kept_cleanOut a))

theorem isRooted_joinPath (a r : String) (h : relClean r = true) :
    isRooted (joinPath a r).data = isRooted a.data := by
  rw [joinPath_rel a r h]
  exact isRooted_renderClean _ _ (cleanOut_push _ _ _
    (by simpa [relClean, List.all_eq_true] using h) (kept_cleanOut a))

theorem relClean_append (r s : String) (hr : relClean r = true) (hs : relClean s = true) :
    relClean (r ++ "/" ++ s) = true
      ∧ splitSlash (r ++ "/" ++ s).data = splitSlash r.data ++ splitSlash s.data := by
  have hd : (r ++ "/" ++ s).data = r.data ++ '/' :: s.data := by simp
  have hsp : splitSlash (r ++ "/" ++ s).data = splitSlash r.data ++ splitSlash s.data := by
    rw [hd]; exact splitSep_append '/' _ _
  refine ⟨?_, hsp⟩
  unfold relClean at hr hs ⊢
  rw [hsp, List.all_append, hr, hs]
  rfl

/-- Joining in two steps is joining with the concatenated relative path. -/
theorem joinPath_joinPath (a r s : String) (hr : relClean r = true) (hs : relClean s = true) :
    joinPath (joinPath a r) s = joinPath a (r ++ "/" ++ s) := by
  have hrs := relClean_append r s hr hs
  rw [joinPath_rel _ s hs, joinPath_rel a _ hrs.1, kept_joinPath a r hr,
    isRooted_joinPath a r hr, hrs.2]
  simp

/-- Joining one root with two clean relative paths gives the same path only when the
relative paths are the same. -/
theorem joinPath_inj (a r s : String) (hr : relClean r = true) (hs : relClean s = true)
    (h : joinPath a r = joinPath a s) : r = s := by
  have hk : kept (joinPath a r) = kept (joinPath a s) := by rw [h]
  rw [kept_joinPath a r hr, kept_joinPath a s hs] at hk
  have := List.append_cancel_right hk
  have h2 : splitSlash r.data = splitSlash s.data := by simpa using this
  have h3 : r.data = s.data := by
    rw [← joinSlash_splitSlash r.data, ← joinSlash_splitSlash s.data, h2]
  exact String.ext h3

/-! ## Effects: how each changes the world -/

theorem flask_scaffold_eq (p fw : String) (w : World) :
    Flask.scaffold p fw w = skeleton Flask.templates p fw w := rfl

theorem fastapi_scaffold_eq (p fw : String) (w : World) :
    FastAPI.scaffold p fw w = skeleton FastAPI.templates p fw w := rfl

theorem scaffoldOf_eq (s : Stack) (p fw : String) (w : World) :
    scaffoldOf s p fw w = skeleton (templatesOf s) p fw w := by
  cases s
  · exact flask_scaffold_eq p fw w
  · exact fastapi_scaffold_eq p fw w

theorem osMkdir_snd (p : String) (w : World) :
    (osMkdir p w).2 =
      { w with fs := if mkdirErr p w = none then fsUpdate p .dir w.fs else w.fs,
               trace := w.trace ++ [.mkdir p (mkdirErr p w).isNone] } := by
  unfold osMkdir; cases mkdirErr p w <;> rfl

theorem osWriteFile_snd (p c : String) (w : World) :
    (osWriteFile p c w).2 =
      { w with fs := if writeFileErr p w = none then fsUpdate p (.file c) w.fs else w.fs,
               trace := w.trace ++ [.writeFile p c (writeFileErr p w).isNone] } := by
  unfold osWriteFile; cases writeFileErr p w <;> rfl

theorem execRun_snd (argv : List String) (w : World) :
    (execRun argv w).2 = w.emit (.exec argv (w.fault w.trace.length).isNone) := by
  unfold execRun; cases w.fault w.trace.length <;> rfl

theorem osChdir_snd (d : String) (w : World) :
    (osChdir d w).2 = w.emit (.chdir d (w.fault w.trace.length).isNone) := by
  unfold osChdir; cases w.fault w.trace.length <;> rfl

theorem Instr.run_trace (i : Instr) (w : World) : (i.run w).trace = w.trace ++ [i.event w] := by
  cases i
  · simp [Instr.run, Instr.event, osMkdir_snd]
  · simp [Instr.run, Instr.event, osWriteFile_snd]
  · rfl
  · simp [Instr.run, Instr.event, execRun_snd, World.emit]
  · simp [Instr.run, Instr.event, osChdir_snd, World.emit]

theorem Instr.run_fs_ok (i : Instr) (w : World) (h : (i.event w).succeeded = true) :
    (i.run w).fs = i.apply w.fs := by
  cases i
  · simp only [Instr.event, Event.succeeded, Option.isNone_iff_eq_none] at h
    simp [Instr.run, Instr.apply, osMkdir_snd, h]
  · simp only [Instr.event, Event.succeeded, Option.isNone_iff_eq_none] at h
    simp [Instr.run, Instr.apply, osWriteFile_snd, h]
  · rfl
  · simp [Instr.run, Instr.apply, execRun_snd, World.emit]
  · simp [Instr.run, Instr.apply, osChdir_snd, World.emit]

theorem Instr.run_fs_frame (i : Instr) (w : World) (q : String) (h : i.path? ≠ some q) :
    (i.run w).fs q = w.fs q := by
  cases i
  · have hq : q ≠ _ := fun e => h (by rw [e]; rfl)
    simp only [Instr.run, osMkdir_snd]
    split <;> simp [fsUpdate, hq]
  · have hq : q ≠ _ := fun e => h (by rw [e]; rfl)
    simp only [Instr.run, osWriteFile_snd]
    split <;> simp [fsUpdate, hq]
  · rfl
  · simp [Instr.run, execRun_snd, World.emit]
  · simp [Instr.run, osChdir_snd, World.emit]

theorem runAll_cons (i : Instr) (is : List Instr) (w : World) :
    runAll (i :: is) w = runAll is (i.run w) := rfl

theorem runAll_append (is js : List Instr) (w : World) :
    runAll (is ++ js) w = runAll js (runAll is w) := by
  simp [runAll, List.foldl_append]

theorem runAll_trace (is : List Instr) (w : World) :
    (runAll is w).trace = w.trace ++ runEvents is w := by
  induction is generalizing w with
  | nil => simp [runAll, runEvents]
  | cons i rest ih => rw [runAll_cons, ih, Instr.run_trace]; simp [runEvents]

theorem issued_runAll (is : List Instr) (w : World) :
    issued w (runAll is w) = runEvents is w := by
  simp [issued, runAll_trace]

theorem writesOf_runEvents (is : List Instr) (w : World) :
    writesOf (runEvents is w) = is.filterMap Instr.write? := by
  induction is generalizing w with
  | nil => rfl
  | cons i rest ih => cases i <;> simp [runEvents, Instr.event, writesOf, Instr.write?, ih]

theorem fsOpsOf_runEvents (is : List Instr) (w : World) :
    fsOpsOf (runEvents is w) = is.filterMap Instr.fsOp? := by
  induction is generalizing w with
  | nil => rfl
  | cons i rest ih => cases i <;> simp [runEvents, Instr.event, fsOpsOf, Instr.fsOp?, ih]

theorem execsOf_runEvents (is : List Instr) (w : World) :
    execsOf (runEvents is w) = is.filterMap Instr.argv? := by
  induction is generalizing w with
  | nil => rfl
  | cons i rest ih => cases i <;> simp [runEvents, Instr.event, execsOf, Instr.argv?, ih]

theorem stdoutOf_runEvents (is : List Instr) (w : World) :
    stdoutOf (runEvents is w) = is.filterMap Instr.text? := by
  induction is generalizing w with
  | nil => rfl
  | cons i rest ih => cases i <;> simp [runEvents, Instr.event, stdoutOf, Instr.text?, ih]

theorem runAll_fs_ok (is : List Instr) (w : World)
    (h : ∀ e ∈ runEvents is w, e.succeeded = true) :
    (runAll is w).fs = is.foldl (fun fs i => i.apply fs) w.fs := by
  induction is generalizing w with
  | nil => rfl
  | cons i rest ih =>
    rw [runAll_cons, ih (i.run w) (fun e he => h e (by simp [runEvents, he])),
      Instr.run_fs_ok i w (h _ (by simp [runEvents]))]
    rfl

theorem runAll_fs_frame (is : List Instr) (w : World) (q : String)
    (h : ∀ i ∈ is, i.path? ≠ some q) : (runAll is w).fs q = w.fs q := by
  induction is generalizing w with
  | nil => rfl
  | cons i rest ih =>
    rw [runAll_cons, ih (i.run w) (fun j hj => h j (by simp [hj])),
      Instr.run_fs_frame i w q (h i (by simp))]

theorem skeletonRest_eq (T : Templates) (p fw : String) (w : World) :
    skeletonRest T p fw w = runAll (basePlan T p ++ testPlan T p fw ++ donePlan T p) w := by
  by_cases h1 : fw = "None"
  · subst h1; rfl
  · by_cases h2 : fw = "pytest"
    · subst h2; rfl
    · by_cases h3 : fw = "unittest"
      · subst h3; rfl
      · simp only [skeletonRest, testPlan, h1, h2, h3, ne_eq, not_false_eq_true, if_true, if_false]
        rfl

theorem skeleton_root_fail (T : Templates) (p fw : String) (w : World) (e : String)
    (h : mkdirErr p w = some e) :
    skeleton T p fw w
      = fmtPrint ("Error creating project directory: " ++ e ++ "\n") (w.emit (.mkdir p false)) := by
  simp only [skeleton, osMkdir, h]

theorem skeleton_root_ok (T : Templates) (p fw : String) (w : World)
    (h : mkdirErr p w = none) : skeleton T p fw w = runAll (fullPlan T p fw) w := by
  have : (Instr.mkdir p).run w = { w with fs := fsUpdate p .dir w.fs }.emit (.mkdir p true) := by
    simp [Instr.run, osMkdir, h]
  rw [fullPlan, runAll_cons, this, ← skeletonRest_eq]
  simp only [skeleton, osMkdir, h]

/-! ## Paths written by the skeleton commands -/

theorem joinPath_eq_iff (a r s : String) (hr : relClean r = true) (hs : relClean s = true) :
    joinPath a r = joinPath a s ↔ r = s :=
  ⟨joinPath_inj a r s hr hs, fun h => by rw [h]⟩

theorem joinPath_app (a n : String) (hn : relClean n = true) :
    joinPath (joinPath a "app") n = joinPath a ("app/" ++ n) :=
  joinPath_joinPath a "app" n (by decide) hn

theorem joinPath_tests (a n : String) (hn : relClean n = true) :
    joinPath (joinPath a "tests") n = joinPath a ("tests/" ++ n) :=
  joinPath_joinPath a "tests" n (by decide) hn

theorem foldl_apply_frame (is : List Instr) (fs : FS) (q : String)
    (h : ∀ i ∈ is, i.path? ≠ some q) : (is.foldl (fun fs i => i.apply fs) fs) q = fs q := by
  induction is generalizing fs with
  | nil => rfl
  | cons i rest ih =>
    rw [List.foldl_cons, ih _ (fun j hj => h j (by simp [hj]))]
    have hi := h i (by simp)
    cases i
    · have hq : q ≠ _ := fun e => hi (by rw [e]; rfl)
      simp [Instr.apply, fsUpdate, hq]
    · have hq : q ≠ _ := fun e => hi (by rw [e]; rfl)
      simp [Instr.apply, fsUpdate, hq]
    all_goals rfl

/-- After a run of successful steps a path holds what the last step acting on it left. -/
theorem foldl_apply_at (is : List Instr) (k : Nat) (q : String) (n : Node) (fs : FS)
    (hq : (is.get? k).bind Instr.path? = some q) (hn : (is.get? k).bind Instr.node? = some n)
    (h : ∀ i ∈ is.drop (k + 1), i.path? ≠ some q) :
    (is.foldl (fun fs i => i.apply fs) fs) q = some n := by
  induction is generalizing k fs with
  | nil => simp at hq
  | cons i rest ih =>
    cases k with
    | zero =>
      simp only [List.get?_cons_zero, Option.some_bind] at hq hn
      rw [List.foldl_cons, foldl_apply_frame rest _ q (by simpa using h)]
      cases i
      · simp only [Instr.path?, Option.some.injEq] at hq
        simp only [Instr.node?, Option.some.injEq] at hn
        simp [Instr.apply, fsUpdate, hq, hn]
      · simp only [Instr.path?, Option.some.injEq] at hq
        simp only [Instr.node?, Option.some.injEq] at hn
        simp [Instr.apply, fsUpdate, hq, hn]
      all_goals simp [Instr.path?] at hq
    | succ k =>
      rw [List.foldl_cons]
      exact ih k _ (by simpa using hq) (by simpa using hn) (by simpa using h)

/-- The steps of a skeleton command with pytest, every path relative to the project root. -/
theorem fullPlan_pytest (T : Templates) (p : String) :
    fullPlan T p "pytest" =
      [.mkdir p,
       .mkdir (joinPath p "app"),
       .write (joinPath p "app/__init__.py") "",
       .write (joinPath p "app/main.py") T.mainPy,
       .write (joinPath p "app/models.py") T.models,
       .write (joinPath p "app/schemas.py") T.schemas,
       .write (joinPath p "app/routes.py") T.routes,
       .write (joinPath p "requirements.txt") T.requirements,
       .write (joinPath p "Dockerfile") T.dockerfile,
       .write (joinPath p ".gitignore") T.gitignore,
       .mkdir (joinPath p "tests"),
       .write (joinPath p "tests/__init__.py") "",
       .write (joinPath p "tests/test_main.py") T.pytestTest,
       .write (joinPath p "requirements.txt") (T.requirements ++ "\npytest\n"),
       .print ("Testing framework \x27pytest\x27 set up successfully in \x27" ++ p ++ "/tests\x27.\n"),
       .print (T.label ++ " skeleton project \x27" ++ p ++ "\x27 created successfully!\n")] := by
  have e1 := joinPath_app p "__init__.py" (by decide)
  have e2 := joinPath_app p "main.py" (by decide)
  have e3 := joinPath_app p "models.py" (by decide)
  have e4 := joinPath_app p "schemas.py" (by decide)
  have e5 := joinPath_app p "routes.py" (by decide)
  have e6 := joinPath_tests p "__init__.py" (by decide)
  have e7 := joinPath_tests p "test_main.py" (by decide)
  simp only [fullPlan, basePlan, testPlan, donePlan, e1, e2, e3, e4, e5, e6, e7]
  rfl

theorem issued_root_fail (w : World) (p t : String) :
    issued w (fmtPrint t (w.emit (.mkdir p false))) = [.mkdir p false, .stdout t] := by
  simp [issued, fmtPrint, World.emit]

/-- Claim C1: when every filesystem operation of `create-flask-skeleton` with the
testing framework `pytest` succeeds (the creation of the project root included), the run
leaves under the project root the files `app/main.py`, `app/models.py`, `app/schemas.py`,
`app/routes.py`, `tests/test_main.py` and `requirements.txt`, each holding the non-empty
text the command wrote last; the final `requirements.txt` has the line `flask` and the
line `pytest`. -/
theorem flask_pytest_skeleton_files (projectName : String) (w : World)
    (hok : ∀ e ∈ issued w (Flask.scaffold projectName "pytest" w), e.succeeded = true) :
    ((Flask.scaffold projectName "pytest" w).fs (joinPath projectName "app/main.py")
        = some (.file Flask.mainPyContent) ∧ Flask.mainPyContent ≠ "")
    ∧ ((Flask.scaffold projectName "pytest" w).fs (joinPath projectName "app/models.py")
        = some (.file Flask.modelsContent) ∧ Flask.modelsContent ≠ "")
    ∧ ((Flask.scaffold projectName "pytest" w).fs (joinPath projectName "app/schemas.py")
        = some (.file Flask.schemasContent) ∧ Flask.schemasContent ≠ "")
    ∧ ((Flask.scaffold projectName "pytest" w).fs (joinPath projectName "app/routes.py")
        = some (.file Flask.routesContent) ∧ Flask.routesContent ≠ "")
    ∧ ((Flask.scaffold projectName "pytest" w).fs (joinPath projectName "tests/test_main.py")
        = some (.file Flask.pytestTestContent) ∧ Flask.pytestTestContent ≠ "")
    ∧ ((Flask.scaffold projectName "pytest" w).fs (joinPath projectName "requirements.txt")
        = some (.file (Flask.requirementsContent ++ "\npytest\n"))
      ∧ "flask" ∈ linesOf (Flask.requirementsContent ++ "\npytest\n")
      ∧ "pytest" ∈ linesOf (Flask.requirementsContent ++ "\npytest\n")) := by
  rw [flask_scaffold_eq] at hok ⊢
  cases hroot : mkdirErr projectName w with
  | some e =>
    rw [skeleton_root_fail _ _ _ _ e hroot, issued_root_fail] at hok
    have := hok (.mkdir projectName false) (by simp)
    simp [Event.succeeded] at this
  | none =>
    rw [skeleton_root_ok _ _ _ _ hroot] at hok ⊢
    rw [issued_runAll] at hok
    rw [runAll_fs_ok _ _ hok, fullPlan_pytest]
    refine ⟨⟨?_, by decide⟩, ⟨?_, by decide⟩, ⟨?_, by decide⟩, ⟨?_, by decide⟩, ⟨?_, by decide⟩,
      ?_, by decide, by decide⟩
    · refine foldl_apply_at _ 3 _ _ _ rfl rfl ?_
      simp (disch := decide) only [List.drop_succ_cons, List.drop_zero, List.mem_cons,
        List.mem_singleton, forall_eq_or_imp, forall_eq, Instr.path?, ne_eq, Option.some.injEq,
        joinPath_eq_iff, not_false_eq_true, and_true, List.not_mem_nil, false_implies,
        implies_true, reduceCtorEq]
      try decide
    · refine foldl_apply_at _ 4 _ _ _ rfl rfl ?_
      simp (disch := decide) only [List.drop_succ_cons, List.drop_zero, List.mem_cons,
        List.mem_singleton, forall_eq_or_imp, forall_eq, Instr.path?, ne_eq, Option.some.injEq,
        joinPath_eq_iff, not_false_eq_true, and_true, List.not_mem_nil, false_implies,
        implies_true, reduceCtorEq]
      try decide
    · refine foldl_apply_at _ 5 _ _ _ rfl rfl ?_
      simp (disch := decide) only [List.drop_succ_cons, List.drop_zero, List.mem_cons,
        List.mem_singleton, forall_eq_or_imp, forall_eq, Instr.path?, ne_eq, Option.some.injEq,
        joinPath_eq_iff, not_false_eq_true, and_true, List.not_mem_nil, false_implies,
        implies_true, reduceCtorEq]
      try decide
    · refine foldl_apply_at _ 6 _ _ _ rfl rfl ?_
      simp (disch := decide) only [List.drop_succ_cons, List.drop_zero, List.mem_cons,
        List.mem_singleton, forall_eq_or_imp, forall_eq, Instr.path?, ne_eq, Option.some.injEq,
        joinPath_eq_iff, not_false_eq_true, and_true, List.not_mem_nil, false_implies,
        implies_true, reduceCtorEq]
      try decide
    · refine foldl_apply_at _ 12 _ _ _ rfl rfl ?_
      simp (disch := decide) only [List.drop_succ_cons, List.drop_zero, List.mem_cons,
        List.mem_singleton, forall_eq_or_imp, forall_eq, Instr.path?, ne_eq, Option.some.injEq,
        joinPath_eq_iff, not_false_eq_true, and_true, List.not_mem_nil, false_implies,
        implies_true, reduceCtorEq]
      try decide
    · refine foldl_apply_at _ 13 _ _ _ rfl rfl ?_
      simp (disch := decide) only [List.drop_succ_cons, List.drop_zero, List.mem_cons,
        List.mem_singleton, forall_eq_or_imp, forall_eq, Instr.path?, ne_eq, Option.some.injEq,
        joinPath_eq_iff, not_false_eq_true, and_true, List.not_mem_nil, false_implies,
        implies_true, reduceCtorEq]
      try decide

/-- Claim C1 at the project name `proj` in an empty filesystem without failures. -/
theorem flask_pytest_skeleton_files_witness :
    (∀ e ∈ issued blank (Flask.scaffold "proj" "pytest" blank), e.succeeded = true)
    ∧ (blank.fs "proj").isNone
    ∧ (Flask.scaffold "proj" "pytest" blank).fs "proj/app/main.py" = some (.file Flask.mainPyContent)
    ∧ (Flask.scaffold "proj" "pytest" blank).fs "proj/requirements.txt"
        = some (.file "flask\n\npytest\n") :=
  have h := flask_pytest_skeleton_files "proj" blank (by decide)
  ⟨by decide, by decide, h.1.1, h.2.2.2.2.2.1⟩

/-! ## The skeleton commands: what a run issues -/

theorem issued_scaffold_ok (s : Stack) (p fw : String) (w : World) (h : mkdirErr p w = none) :
    issued w (scaffoldOf s p fw w) = runEvents (fullPlan (templatesOf s) p fw) w := by
  rw [scaffoldOf_eq, skeleton_root_ok _ _ _ _ h, issued_runAll]

theorem scaffold_root_fail (s : Stack) (p fw : String) (w : World) (e : String)
    (h : mkdirErr p w = some e) :
    issued w (scaffoldOf s p fw w)
        = [.mkdir p false, .stdout ("Error creating project directory: " ++ e ++ "\n")]
      ∧ (scaffoldOf s p fw w).fs = w.fs := by
  rw [scaffoldOf_eq, skeleton_root_fail _ _ _ _ e h, issued_root_fail]
  exact ⟨rfl, rfl⟩

/-- The file writes of a skeleton command are the relative writes joined to the root. -/
theorem writes_fullPlan (T : Templates) (p fw : String) :
    (fullPlan T p fw).filterMap Instr.write?
      = (relWrites T fw).map (fun rc => (joinPath p rc.1, rc.2)) := by
  have e1 := joinPath_app p "__init__.py" (by decide)
  have e2 := joinPath_app p "main.py" (by decide)
  have e3 := joinPath_app p "models.py" (by decide)
  have e4 := joinPath_app p "schemas.py" (by decide)
  have e5 := joinPath_app p "routes.py" (by decide)
  have e6 := joinPath_tests p "__init__.py" (by decide)
  have e7 := joinPath_tests p "test_main.py" (by decide)
  by_cases h1 : fw = "None"
  · subst h1
    simp only [fullPlan, basePlan, testPlan, donePlan, relWrites, e1, e2, e3, e4, e5]
    rfl
  · by_cases h2 : fw = "pytest"
    · subst h2
      simp only [fullPlan, basePlan, testPlan, donePlan, relWrites, e1, e2, e3, e4, e5, e6, e7]
      rfl
    · by_cases h3 : fw = "unittest"
      · subst h3
        simp only [fullPlan, basePlan, testPlan, donePlan, relWrites, e1, e2, e3, e4, e5, e6, e7]
        rfl
      · simp only [fullPlan, basePlan, testPlan, donePlan, relWrites, e1, e2, e3, e4, e5, e6,
          h1, h2, h3, if_false]
        rfl

theorem relWrites_clean (T : Templates) (fw : String) :
    ∀ rc ∈ relWrites T fw, relClean rc.1 = true := by
  intro rc hrc
  unfold relWrites at hrc
  rw [List.mem_append] at hrc
  rcases hrc with h | h
  · simp only [List.mem_cons, List.mem_singleton, List.not_mem_nil, or_false] at h
    rcases h with rfl | rfl | rfl | rfl | rfl | rfl | rfl | rfl <;> (dsimp only; decide)
  · split at h
    · simp at h
    · rw [List.mem_cons] at h
      rcases h with rfl | h
      · decide
      · split at h
        · simp only [List.mem_cons, List.mem_singleton, List.not_mem_nil, or_false] at h
          rcases h with rfl | rfl <;> (dsimp only; decide)
        · split at h
          · simp only [List.mem_singleton] at h
            subst h; dsimp only; decide
          · simp at h

theorem writesOf_issued_ok (s : Stack) (p fw : String) (w : World) (h : mkdirErr p w = none) :
    writesOf (issued w (scaffoldOf s p fw w))
      = (relWrites (templatesOf s) fw).map (fun rc => (joinPath p rc.1, rc.2)) := by
  rw [issued_scaffold_ok s p fw w h, writesOf_runEvents, writes_fullPlan]

/-- Claim C3: for both skeleton commands, every project name and every testing
framework, if the project root already exists then the filesystem is left exactly as it
was and the run consists of the failed attempt to create the root followed by the error
line: no directory is created, no file is written and no success message is printed. -/
theorem existing_root_writes_nothing (s : Stack) (projectName testingFramework : String)
    (w : World) (hex : (w.fs projectName).isSome = true) :
    (scaffoldOf s projectName testingFramework w).fs = w.fs
    ∧ ∃ err, issued w (scaffoldOf s projectName testingFramework w)
        = [.mkdir projectName false,
           .stdout ("Error creating project directory: " ++ err ++ "\n")] := by
  have : ∃ e, mkdirErr projectName w = some e := by
    unfold mkdirErr
    cases w.fault w.trace.length with
    | some e => exact ⟨e, rfl⟩
    | none =>
      by_cases hn : projectName = ""
      · exact ⟨"mkdir : no such file or directory", by simp [hn]⟩
      · exact ⟨"mkdir " ++ projectName ++ ": file exists", by simp [hn, hex]⟩
  obtain ⟨e, he⟩ := this
  have h := scaffold_root_fail s projectName testingFramework w e he
  exact ⟨h.2, e, h.1⟩

/-- Claim C3 at the project name `proj` when `proj` is already a directory. -/
theorem existing_root_writes_nothing_witness :
    (occupied.fs "proj").isSome = true
    ∧ (scaffoldOf .flask "proj" "pytest" occupied).fs = occupied.fs
    ∧ ∃ err, issued occupied (scaffoldOf .flask "proj" "pytest" occupied)
        = [.mkdir "proj" false, .stdout ("Error creating project directory: " ++ err ++ "\n")] :=
  ⟨by decide, existing_root_writes_nothing .flask "proj" "pytest" occupied (by decide)⟩

/-- Claim C6: for both skeleton commands, once the project root has been created the
ordered sequence of (path, content) writes attempted is the same in any two worlds,
whatever succeeds or fails in either, and it has at least the eight base writes. -/
theorem writes_attempted_whatever_fails (s : Stack) (projectName testingFramework : String)
    (w₁ w₂ : World) (h₁ : mkdirErr projectName w₁ = none) (h₂ : mkdirErr projectName w₂ = none) :
    writesOf (issued w₁ (scaffoldOf s projectName testingFramework w₁))
      = writesOf (issued w₂ (scaffoldOf s projectName testingFramework w₂))
    ∧ 8 ≤ (writesOf (issued w₁ (scaffoldOf s projectName testingFramework w₁))).length := by
  rw [writesOf_issued_ok s _ _ w₁ h₁, writesOf_issued_ok s _ _ w₂ h₂]
  refine ⟨rfl, ?_⟩
  simp only [relWrites, List.length_map, List.length_append, List.length_cons, List.length_nil]
  omega

/-- Claim C6 for `proj`: a world without failures against one whose disk is full. -/
theorem writes_attempted_whatever_fails_witness :
    mkdirErr "proj" blank = none ∧ mkdirErr "proj" diskFull = none
    ∧ writesOf (issued blank (scaffoldOf .flask "proj" "pytest" blank))
      = writesOf (issued diskFull (scaffoldOf .flask "proj" "pytest" diskFull))
    ∧ 8 ≤ (writesOf (issued blank (scaffoldOf .flask "proj" "pytest" blank))).length :=
  ⟨by decide, by decide,
    writes_attempted_whatever_fails .flask "proj" "pytest" blank diskFull (by decide) (by decide)⟩

theorem fsOpsOf_issued_ok (s : Stack) (p fw : String) (w : World) (h : mkdirErr p w = none) :
    fsOpsOf (issued w (scaffoldOf s p fw w))
      = (fullPlan (templatesOf s) p fw).filterMap Instr.fsOp? := by
  rw [issued_scaffold_ok s p fw w h, fsOpsOf_runEvents]

theorem stdoutOf_issued_ok (s : Stack) (p fw : String) (w : World) (h : mkdirErr p w = none) :
    stdoutOf (issued w (scaffoldOf s p fw w))
      = (fullPlan (templatesOf s) p fw).filterMap Instr.text? := by
  rw [issued_scaffold_ok s p fw w h, stdoutOf_runEvents]

theorem getLast?_text_fullPlan (T : Templates) (p fw : String) :
    ((fullPlan T p fw).filterMap Instr.text?).getLast?
      = some (T.label ++ " skeleton project \x27" ++ p ++ "\x27 created successfully!\n") := by
  have : fullPlan T p fw = (.mkdir p :: (basePlan T p ++ testPlan T p fw)) ++ donePlan T p := by
    simp [fullPlan]
  rw [this, List.filterMap_append]
  simp [donePlan, Instr.text?]

/-- Claim C9 as stated fails: with the disk full after the project root was created,
creating `proj/app` fails, yet all ten filesystem operations are attempted and the
success message is printed. -/
theorem app_creation_failure_does_not_abort :
    Event.mkdir "proj/app" false ∈ issued diskFull (scaffoldOf .flask "proj" "None" diskFull)
    ∧ (fsOpsOf (issued diskFull (scaffoldOf .flask "proj" "None" diskFull))).length = 10
    ∧ stdoutOf (issued diskFull (scaffoldOf .flask "proj" "None" diskFull))
        = ["Flask skeleton project \x27proj\x27 created successfully!\n"] := by
  decide

/-- Claim C9, amended: for both skeleton commands a failure to create the project root
aborts the run (only the failed attempt and the error line are issued).  Once the root
is created the run always ends by printing the success message, and the filesystem
operations attempted and the texts printed are the same in every world, so a failure to
create the `app` or `tests` directory changes neither. -/
theorem only_root_creation_failure_aborts (s : Stack) (projectName testingFramework : String)
    (w : World) :
    (∀ err, mkdirErr projectName w = some err →
        issued w (scaffoldOf s projectName testingFramework w)
          = [.mkdir projectName false,
             .stdout ("Error creating project directory: " ++ err ++ "\n")])
    ∧ (mkdirErr projectName w = none →
        (stdoutOf (issued w (scaffoldOf s projectName testingFramework w))).getLast?
          = some ((templatesOf s).label ++ " skeleton project \x27" ++ projectName
              ++ "\x27 created successfully!\n")
        ∧ ∀ w', mkdirErr projectName w' = none →
            fsOpsOf (issued w' (scaffoldOf s projectName testingFramework w'))
              = fsOpsOf (issued w (scaffoldOf s projectName testingFramework w))
            ∧ stdoutOf (issued w' (scaffoldOf s projectName testingFramework w'))
              = stdoutOf (issued w (scaffoldOf s projectName testingFramework w))) := by
  refine ⟨fun err h => (scaffold_root_fail s _ _ w err h).1, fun h => ⟨?_, fun w' h' => ⟨?_, ?_⟩⟩⟩
  · rw [stdoutOf_issued_ok s _ _ w h]
    exact getLast?_text_fullPlan _ _ _
  · rw [fsOpsOf_issued_ok s _ _ w h, fsOpsOf_issued_ok s _ _ w' h']
  · rw [stdoutOf_issued_ok s _ _ w h, stdoutOf_issued_ok s _ _ w' h']

/-- Claim C9, amended, for the Flask project `proj`: refused when `proj` exists, carried
through in an empty filesystem. -/
theorem only_root_creation_failure_aborts_witness :
    (mkdirErr "proj" occupied = some "mkdir proj: file exists"
      ∧ issued occupied (scaffoldOf .flask "proj" "pytest" occupied)
          = [.mkdir "proj" false,
             .stdout "Error creating project directory: mkdir proj: file exists\n"])
    ∧ (mkdirErr "proj" blank = none
      ∧ (stdoutOf (issued blank (scaffoldOf .flask "proj" "pytest" blank))).getLast?
          = some "Flask skeleton project \x27proj\x27 created successfully!\n") :=
  ⟨⟨by decide,
     (only_root_creation_failure_aborts .flask "proj" "pytest" occupied).1
       "mkdir proj: file exists" (by decide)⟩,
   ⟨by decide,
     ((only_root_creation_failure_aborts .flask "proj" "pytest" blank).2 (by decide)).1⟩⟩

theorem not_dotdot_of_relClean {r : String} (h : relClean r = true) :
    ['.', '.'] ∉ splitSlash r.data := by
  intro hm
  have := (List.all_eq_true.1 h) _ hm
  exact absurd this (by decide)

/-- Claim C10: for both skeleton commands and every testing framework, every path
written is the project name joined with a relative path that is not absolute and has no
`..` element; the elements of the cleaned written path are those of the project name
followed by those of the relative path, so the path does not leave the project root. -/
theorem written_paths_stay_under_root (s : Stack) (projectName testingFramework : String)
    (w : World) :
    ∀ e ∈ writesOf (issued w (scaffoldOf s projectName testingFramework w)),
      ∃ rel : String, e.1 = joinPath projectName rel
        ∧ isRooted rel.data = false
        ∧ ['.', '.'] ∉ splitSlash rel.data
        ∧ cleanElems e.1 = cleanElems projectName ++ splitSlash rel.data := by
  intro e he
  cases hroot : mkdirErr projectName w with
  | some err =>
    rw [(scaffold_root_fail s _ _ w err hroot).1] at he
    simp [writesOf] at he
  | none =>
    rw [writesOf_issued_ok s _ _ w hroot, List.mem_map] at he
    obtain ⟨rc, hrc, rfl⟩ := he
    have hc := relWrites_clean _ _ rc hrc
    refine ⟨rc.1, rfl, (relClean_data hc).2, not_dotdot_of_relClean hc, ?_⟩
    simp [cleanElems, kept_joinPath _ _ hc]

/-- Claim C10 at the first file written for the project name `proj`. -/
theorem written_paths_stay_under_root_witness :
    ("proj/app/__init__.py", "")
        ∈ writesOf (issued blank (scaffoldOf .flask "proj" "pytest" blank))
    ∧ ∃ rel : String, "proj/app/__init__.py" = joinPath "proj" rel
        ∧ isRooted rel.data = false
        ∧ ['.', '.'] ∉ splitSlash rel.data
        ∧ cleanElems "proj/app/__init__.py" = cleanElems "proj" ++ splitSlash rel.data :=
  ⟨by decide, written_paths_stay_under_root .flask "proj" "pytest" blank
    ("proj/app/__init__.py", "") (by decide)⟩

/-- Claim C7 as stated fails: with the testing framework `None` both stacks write the
same `.gitignore` entry. -/
theorem stacks_share_gitignore :
    ("proj/.gitignore", ".venv/\n__pycache__/\n*.pyc\n")
        ∈ writesOf (issued blank (scaffoldOf .flask "proj" "None" blank))
    ∧ ("proj/.gitignore", ".venv/\n__pycache__/\n*.pyc\n")
        ∈ writesOf (issued blank (scaffoldOf .fastapi "proj" "None" blank)) := by
  decide

/-- Claim C7, amended: with the testing framework `None` and the same project name, the
entries written by both `create-flask-skeleton` and `create-fastapi-skeleton` are exactly
the empty `app/__init__.py` and the `.gitignore`; every other entry differs. -/
theorem base_sets_share_exactly_two_entries (projectName : String) (w₁ w₂ : World)
    (h₁ : mkdirErr projectName w₁ = none) (h₂ : mkdirErr projectName w₂ = none)
    (e : String × String) :
    (e ∈ writesOf (issued w₁ (scaffoldOf .flask projectName "None" w₁))
      ∧ e ∈ writesOf (issued w₂ (scaffoldOf .fastapi projectName "None" w₂)))
    ↔ (e = (joinPath projectName "app/__init__.py", "")
      ∨ e = (joinPath projectName ".gitignore", ".venv/\n__pycache__/\n*.pyc\n")) := by
  rw [writesOf_issued_ok _ _ _ w₁ h₁, writesOf_issued_ok _ _ _ w₂ h₂]
  have r1 : relWrites (templatesOf .flask) "None" =
      [("app/__init__.py", ""), ("app/main.py", Flask.mainPyContent),
       ("app/models.py", Flask.modelsContent), ("app/schemas.py", Flask.schemasContent),
       ("app/routes.py", Flask.routesContent), ("requirements.txt", Flask.requirementsContent),
       ("Dockerfile", Flask.dockerfileContent), (".gitignore", Flask.gitignoreContent)] := rfl
  have r2 : relWrites (templatesOf .fastapi) "None" =
      [("app/__init__.py", ""), ("app/main.py", FastAPI.mainPyContent),
       ("app/models.py", FastAPI.modelsContent), ("app/schemas.py", FastAPI.schemasContent),
       ("app/routes.py", FastAPI.routesContent), ("requirements.txt", FastAPI.requirementsContent),
       ("Dockerfile", FastAPI.dockerfileContent), (".gitignore", FastAPI.gitignoreContent)] := rfl
  rw [r1, r2]
  simp only [List.map_cons, List.map_nil, List.mem_cons, List.mem_singleton, List.not_mem_nil,
    or_false]
  constructor
  · rintro ⟨ha, hb⟩
    rcases ha with rfl | rfl | rfl | rfl | rfl | rfl | rfl | rfl <;>
      rcases hb with hb | hb | hb | hb | hb | hb | hb | hb <;>
      first
        | exact Or.inl rfl
        | exact Or.inr rfl
        | exact absurd (Prod.mk.inj hb).2 (by decide)
  · rintro (rfl | rfl)
    · exact ⟨Or.inl rfl, Or.inl rfl⟩
    · exact ⟨Or.inr (Or.inr (Or.inr (Or.inr (Or.inr (Or.inr (Or.inr rfl)))))),
        Or.inr (Or.inr (Or.inr (Or.inr (Or.inr (Or.inr (Or.inr rfl))))))⟩

/-- Claim C7, amended, at the entry `app/__init__.py` of the project `proj`. -/
theorem base_sets_share_exactly_two_entries_witness :
    mkdirErr "proj" blank = none
    ∧ ((("proj/app/__init__.py", "")
          ∈ writesOf (issued blank (scaffoldOf .flask "proj" "None" blank))
        ∧ ("proj/app/__init__.py", "")
          ∈ writesOf (issued blank (scaffoldOf .fastapi "proj" "None" blank)))
      ↔ (("proj/app/__init__.py", "") = (joinPath "proj" "app/__init__.py", "")
        ∨ ("proj/app/__init__.py", "")
            = (joinPath "proj" ".gitignore", ".venv/\n__pycache__/\n*.pyc\n"))) :=
  ⟨by decide, base_sets_share_exactly_two_entries "proj" blank blank (by decide) (by decide)
    ("proj/app/__init__.py", "")⟩

/-- The steps of a skeleton command with unittest, every path relative to the project root. -/
theorem fullPlan_unittest (T : Templates) (p : String) :
    fullPlan T p "unittest" =
      [.mkdir p,
       .mkdir (joinPath p "app"),
       .write (joinPath p "app/__init__.py") "",
       .write (joinPath p "app/main.py") T.mainPy,
       .write (joinPath p "app/models.py") T.models,
       .write (joinPath p "app/schemas.py") T.schemas,
       .write (joinPath p "app/routes.py") T.routes,
       .write (joinPath p "requirements.txt") T.requirements,
       .write (joinPath p "Dockerfile") T.dockerfile,
       .write (joinPath p ".gitignore") T.gitignore,
       .mkdir (joinPath p "tests"),
       .write (joinPath p "tests/__init__.py") "",
       .write (joinPath p "tests/test_main.py") T.unittestTest,
       .print ("Testing framework \x27unittest\x27 set up successfully in \x27" ++ p ++ "/tests\x27.\n"),
       .print (T.label ++ " skeleton project \x27" ++ p ++ "\x27 created successfully!\n")] := by
  have e1 := joinPath_app p "__init__.py" (by decide)
  have e2 := joinPath_app p "main.py" (by decide)
  have e3 := joinPath_app p "models.py" (by decide)
  have e4 := joinPath_app p "schemas.py" (by decide)
  have e5 := joinPath_app p "routes.py" (by decide)
  have e6 := joinPath_tests p "__init__.py" (by decide)
  have e7 := joinPath_tests p "test_main.py" (by decide)
  simp only [fullPlan, basePlan, testPlan, donePlan, e1, e2, e3, e4, e5, e6, e7]
  rfl

theorem testPlan_pytest (T : Templates) (p : String) :
    testPlan T p "pytest" =
      [.mkdir (joinPath p "tests"),
       .write (joinPath p "tests/__init__.py") "",
       .write (joinPath p "tests/test_main.py") T.pytestTest,
       .write (joinPath p "requirements.txt") (T.requirements ++ "\npytest\n"),
       .print ("Testing framework \x27pytest\x27 set up successfully in \x27" ++ p ++ "/tests\x27.\n")] := by
  have e6 := joinPath_tests p "__init__.py" (by decide)
  have e7 := joinPath_tests p "test_main.py" (by decide)
  simp only [testPlan, e6, e7]
  rfl

theorem testPlan_unittest (T : Templates) (p : String) :
    testPlan T p "unittest" =
      [.mkdir (joinPath p "tests"),
       .write (joinPath p "tests/__init__.py") "",
       .write (joinPath p "tests/test_main.py") T.unittestTest,
       .print ("Testing framework \x27unittest\x27 set up successfully in \x27" ++ p ++ "/tests\x27.\n")] := by
  have e6 := joinPath_tests p "__init__.py" (by decide)
  have e7 := joinPath_tests p "test_main.py" (by decide)
  simp only [testPlan, e6, e7]
  rfl

theorem runAll_donePlan_fs (T : Templates) (p : String) (w : World) :
    (runAll (donePlan T p) w).fs = w.fs := rfl

/-- The filesystem a skeleton run ends with: the test steps applied after the base steps. -/
theorem scaffold_fs_split (s : Stack) (p fw : String) (w : World) (h : mkdirErr p w = none) :
    (scaffoldOf s p fw w).fs
      = (runAll (testPlan (templatesOf s) p fw)
          (runAll (.mkdir p :: basePlan (templatesOf s) p) w)).fs := by
  rw [scaffoldOf_eq, skeleton_root_ok _ _ _ _ h]
  have : fullPlan (templatesOf s) p fw
      = (.mkdir p :: basePlan (templatesOf s) p) ++ testPlan (templatesOf s) p fw
          ++ donePlan (templatesOf s) p := by
    simp [fullPlan]
  rw [this, runAll_append, runAll_append, runAll_donePlan_fs]

theorem fsOps_fullPlan (T : Templates) (p fw : String) :
    (fullPlan T p fw).filterMap Instr.fsOp?
      = (fullPlan T p "None").filterMap Instr.fsOp? ++ (testPlan T p fw).filterMap Instr.fsOp? := by
  have h0 : testPlan T p "None" = [] := rfl
  simp [fullPlan, h0, donePlan, Instr.fsOp?, List.filterMap_append]

/-- Claim C2 as stated fails: with `unittest` the final `requirements.txt` is the base
content, the same as with `None`; no dependency line is appended. -/
theorem unittest_appends_no_dependency_line :
    (scaffoldOf .flask "proj" "unittest" blank).fs "proj/requirements.txt"
        = some (.file "flask\n")
    ∧ (scaffoldOf .flask "proj" "None" blank).fs "proj/requirements.txt"
        = some (.file "flask\n")
    ∧ (linesOf "flask\n").count "unittest" = 0 := by
  decide

/-- Claim C2, amended: for both skeleton commands, once the project root is created and
for `pytest` and `unittest`, the filesystem operations attempted are those of the `None`
run followed by the creation of `tests`, an empty `tests/__init__.py`, the test file of
the framework and, for `pytest` only, `requirements.txt` rewritten as the base content
followed by an empty line and the line `pytest`, which occurs exactly once.  Every other
path ends as in the `None` run; with `unittest` so does `requirements.txt`.  When every
operation succeeds the test entries and, for `pytest`, the new `requirements.txt` are
what the filesystem holds. -/
theorem test_framework_adds_test_entries (s : Stack) (projectName testingFramework : String)
    (w : World) (hroot : mkdirErr projectName w = none)
    (hfw : testingFramework = "pytest" ∨ testingFramework = "unittest") :
    fsOpsOf (issued w (scaffoldOf s projectName testingFramework w))
      = fsOpsOf (issued w (scaffoldOf s projectName "None" w))
        ++ [.mkdir (joinPath projectName "tests"),
            .write (joinPath projectName "tests/__init__.py") "",
            .write (joinPath projectName "tests/test_main.py")
              (if testingFramework = "pytest" then (templatesOf s).pytestTest
               else (templatesOf s).unittestTest)]
        ++ (if testingFramework = "pytest" then
              [.write (joinPath projectName "requirements.txt")
                ((templatesOf s).requirements ++ "\npytest\n")]
            else [])
    ∧ (∀ q, q ≠ joinPath projectName "tests" → q ≠ joinPath projectName "tests/__init__.py" →
        q ≠ joinPath projectName "tests/test_main.py" →
        q ≠ joinPath projectName "requirements.txt" →
        (scaffoldOf s projectName testingFramework w).fs q
          = (scaffoldOf s projectName "None" w).fs q)
    ∧ (testingFramework = "unittest" →
        (scaffoldOf s projectName testingFramework w).fs (joinPath projectName "requirements.txt")
          = (scaffoldOf s projectName "None" w).fs (joinPath projectName "requirements.txt"))
    ∧ ((∀ e ∈ issued w (scaffoldOf s projectName testingFramework w), e.succeeded = true) →
        (scaffoldOf s projectName testingFramework w).fs (joinPath projectName "tests")
          = some .dir
        ∧ (scaffoldOf s projectName testingFramework w).fs
            (joinPath projectName "tests/__init__.py") = some (.file "")
        ∧ (scaffoldOf s projectName testingFramework w).fs
            (joinPath projectName "tests/test_main.py")
          = some (.file (if testingFramework = "pytest" then (templatesOf s).pytestTest
              else (templatesOf s).unittestTest))
        ∧ (testingFramework = "pytest" →
            (scaffoldOf s projectName testingFramework w).fs
              (joinPath projectName "requirements.txt")
            = some (.file ((templatesOf s).requirements ++ "\npytest\n"))))
    ∧ (linesOf ((templatesOf s).requirements ++ "\npytest\n")).count "pytest" = 1 := by
  have hnone : (scaffoldOf s projectName "None" w).fs
      = (runAll (.mkdir projectName :: basePlan (templatesOf s) projectName) w).fs := by
    rw [scaffold_fs_split s _ _ w hroot]; rfl
  refine ⟨?_, ?_, ?_, ?_, ?_⟩
  · rw [fsOpsOf_issued_ok s _ _ w hroot, fsOpsOf_issued_ok s _ _ w hroot, fsOps_fullPlan,
      List.append_assoc]
    congr 1
    rcases hfw with rfl | rfl
    · rw [testPlan_pytest]; rfl
    · rw [testPlan_unittest]; rfl
  · intro q h1 h2 h3 h4
    rw [scaffold_fs_split s _ _ w hroot, hnone]
    apply runAll_fs_frame
    intro i hi
    rcases hfw with rfl | rfl
    · rw [testPlan_pytest] at hi
      simp only [List.mem_cons, List.mem_singleton, List.not_mem_nil, or_false] at hi
      rcases hi with rfl | rfl | rfl | rfl | rfl <;>
        simp [Instr.path?, Ne.symm h1, Ne.symm h2, Ne.symm h3, Ne.symm h4]
    · rw [testPlan_unittest] at hi
      simp only [List.mem_cons, List.mem_singleton, List.not_mem_nil, or_false] at hi
      rcases hi with rfl | rfl | rfl | rfl <;>
        simp [Instr.path?, Ne.symm h1, Ne.symm h2, Ne.symm h3]
  · rintro rfl
    rw [scaffold_fs_split s _ _ w hroot, hnone]
    apply runAll_fs_frame
    intro i hi
    rw [testPlan_unittest] at hi
    simp only [List.mem_cons, List.mem_singleton, List.not_mem_nil, or_false] at hi
    rcases hi with rfl | rfl | rfl | rfl <;>
      simp (disch := decide) only [Instr.path?, ne_eq, Option.some.injEq, joinPath_eq_iff,
        not_false_eq_true, reduceCtorEq] <;> decide
  · intro hok
    rw [issued_scaffold_ok s _ _ w hroot] at hok
    rw [scaffoldOf_eq, skeleton_root_ok _ _ _ _ hroot, runAll_fs_ok _ _ hok]
    rcases hfw with rfl | rfl
    · rw [fullPlan_pytest]
      refine ⟨?_, ?_, ?_, fun _ => ?_⟩
      · refine foldl_apply_at _ 10 _ _ _ rfl rfl ?_
        simp (disch := decide) only [List.drop_succ_cons, List.drop_zero, List.mem_cons,
          List.mem_singleton, forall_eq_or_imp, forall_eq, Instr.path?, ne_eq,
          Option.some.injEq, joinPath_eq_iff, not_false_eq_true, and_true, List.not_mem_nil,
          false_implies, implies_true, reduceCtorEq]
        try decide
      · refine foldl_apply_at _ 11 _ _ _ rfl rfl ?_
        simp (disch := decide) only [List.drop_succ_cons, List.drop_zero, List.mem_cons,
          List.mem_singleton, forall_eq_or_imp, forall_eq, Instr.path?, ne_eq,
          Option.some.injEq, joinPath_eq_iff, not_false_eq_true, and_true, List.not_mem_nil,
          false_implies, implies_true, reduceCtorEq]
        try decide
      · refine foldl_apply_at _ 12 _ _ _ rfl rfl ?_
        simp (disch := decide) only [List.drop_succ_cons, List.drop_zero, List.mem_cons,
          List.mem_singleton, forall_eq_or_imp, forall_eq, Instr.path?, ne_eq,
          Option.some.injEq, joinPath_eq_iff, not_false_eq_true, and_true, List.not_mem_nil,
          false_implies, implies_true, reduceCtorEq]
        try decide
      · refine foldl_apply_at _ 13 _ _ _ rfl rfl ?_
        simp (disch := decide) only [List.drop_succ_cons, List.drop_zero, List.mem_cons,
          List.mem_singleton, forall_eq_or_imp, forall_eq, Instr.path?, ne_eq,
          Option.some.injEq, joinPath_eq_iff, not_false_eq_true, and_true, List.not_mem_nil,
          false_implies, implies_true, reduceCtorEq]
        try decide
    · rw [fullPlan_unittest]
      refine ⟨?_, ?_, ?_, fun h => absurd h (by decide)⟩
      · refine foldl_apply_at _ 10 _ _ _ rfl rfl ?_
        simp (disch := decide) only [List.drop_succ_cons, List.drop_zero, List.mem_cons,
          List.mem_singleton, forall_eq_or_imp, forall_eq, Instr.path?, ne_eq,
          Option.some.injEq, joinPath_eq_iff, not_false_eq_true, and_true, List.not_mem_nil,
          false_implies, implies_true, reduceCtorEq]
        try decide
      · refine foldl_apply_at _ 11 _ _ _ rfl rfl ?_
        simp (disch := decide) only [List.drop_succ_cons, List.drop_zero, List.mem_cons,
          List.mem_singleton, forall_eq_or_imp, forall_eq, Instr.path?, ne_eq,
          Option.some.injEq, joinPath_eq_iff, not_false_eq_true, and_true, List.not_mem_nil,
          false_implies, implies_true, reduceCtorEq]
        try decide
      · refine foldl_apply_at _ 12 _ _ _ rfl rfl ?_
        simp (disch := decide) only [List.drop_succ_cons, List.drop_zero, List.mem_cons,
          List.mem_singleton, forall_eq_or_imp, forall_eq, Instr.path?, ne_eq,
          Option.some.injEq, joinPath_eq_iff, not_false_eq_true, and_true, List.not_mem_nil,
          false_implies, implies_true, reduceCtorEq]
        try decide
  · cases s <;> decide

/-- Claim C2, amended, for the Flask project `proj` with `pytest`. -/
theorem test_framework_adds_test_entries_witness :
    mkdirErr "proj" blank = none
    ∧ ("pytest" = "pytest" ∨ "pytest" = "unittest")
    ∧ fsOpsOf (issued blank (scaffoldOf .flask "proj" "pytest" blank))
      = fsOpsOf (issued blank (scaffoldOf .flask "proj" "None" blank))
        ++ [.mkdir "proj/tests", .write "proj/tests/__init__.py" "",
            .write "proj/tests/test_main.py" Flask.pytestTestContent]
        ++ [.write "proj/requirements.txt" "flask\n\npytest\n"]
    ∧ (∀ e ∈ issued blank (scaffoldOf .flask "proj" "pytest" blank), e.succeeded = true)
    ∧ (scaffoldOf .flask "proj" "pytest" blank).fs "proj/tests" = some .dir
    ∧ (scaffoldOf .flask "proj" "pytest" blank).fs "proj/requirements.txt"
        = some (.file "flask\n\npytest\n") :=
  have h := test_framework_adds_test_entries .flask "proj" "pytest" blank (by decide) (by decide)
  ⟨by decide, by decide, h.1, by decide, (h.2.2.2.1 (by decide)).1,
    (h.2.2.2.1 (by decide)).2.2.2 rfl⟩

/-! ## create-react-skeleton, clone-repo and the command line -/

theorem CreateReactApp_eq (projectName useTailwind useLinting testingFramework useTypeScript : String)
    (w : World) :
    CreateReactApp projectName useTailwind useLinting testingFramework useTypeScript w
      = runAll (reactPlan projectName useTailwind useLinting testingFramework useTypeScript) w := by
  unfold CreateReactApp reactPlan
  by_cases h1 : toLower useTailwind = "yes" <;> by_cases h2 : toLower useLinting = "yes" <;>
    by_cases h3 : testingFramework = "Jest" <;> by_cases h4 : testingFramework = "Mocha" <;>
    simp only [h1, h2, h3, h4, if_true, if_false] <;> rfl

/-- Claim C4 fails on the code: `main` registers three subcommands; `CloneRepoCmd`
builds a command named `clone-repo` but it is never added, so the command line
`clone-repo` is answered with an unknown-command error. -/
theorem clone_repo_not_registered :
    rootCmd.Commands.map Command.Use
        = ["create-react-skeleton", "create-flask-skeleton", "create-fastapi-skeleton"]
    ∧ (∀ OllamaRepo GoRepo, (CloneRepoCmd OllamaRepo GoRepo).Use = "clone-repo")
    ∧ "clone-repo" ∉ rootCmd.Commands.map Command.Use
    ∧ (main ["clone-repo"] blank).trace
        = [.stderr "Error: unknown command \"clone-repo\" for \"infocusp\"\n"] := by
  refine ⟨by decide, fun _ _ => rfl, by decide, by decide⟩

/-- Claim C5 as stated fails: the answer `yes`, which is not `Yes`, selects the
TypeScript template. -/
theorem lowercase_yes_selects_typescript :
    execsOf (issued blank (CreateReactApp "app" "No" "No" "None" "yes" blank))
        = [["npx", "create-react-app", "app", "--template", "typescript"]]
    ∧ "yes" ≠ "Yes" := by
  decide

/-- Claim C5, amended: whatever each external command returns, `CreateReactApp` starts,
in this order: `npx create-react-app <projectName>` (with `--template typescript` iff
`useTypeScript` is `yes` in any letter case); the two Tailwind commands iff `useTailwind`
is `yes` in any letter case; the two ESLint commands iff `useLinting` is `yes` in any
letter case; the Jest install iff `testingFramework` is exactly `Jest`, the Mocha install
iff it is exactly `Mocha`.  The prompt answer `Yes` counts as yes and `No` does not. -/
theorem react_commands_in_order
    (projectName useTailwind useLinting testingFramework useTypeScript : String) (w : World) :
    execsOf (issued w
        (CreateReactApp projectName useTailwind useLinting testingFramework useTypeScript w))
      = [if toLower useTypeScript = "yes" then
           ["npx", "create-react-app", projectName, "--template", "typescript"]
         else ["npx", "create-react-app", projectName]]
        ++ (if toLower useTailwind = "yes" then
              [["npm", "install", "-D", "tailwindcss", "postcss", "autoprefixer"],
               ["npx", "tailwindcss", "init"]]
            else [])
        ++ (if toLower useLinting = "yes" then
              [["npm", "install", "-D", "eslint"], ["npx", "eslint", "--init"]]
            else [])
        ++ (if testingFramework = "Jest" then [["npm", "install", "--save-dev", "jest"]]
            else if testingFramework = "Mocha" then [["npm", "install", "--save-dev", "mocha"]]
            else [])
    ∧ toLower "Yes" = "yes" ∧ toLower "No" ≠ "yes" := by
  refine ⟨?_, by decide, by decide⟩
  rw [CreateReactApp_eq, issued_runAll, execsOf_runEvents]
  unfold reactPlan
  by_cases h1 : toLower useTailwind = "yes" <;> by_cases h2 : toLower useLinting = "yes" <;>
    by_cases h3 : testingFramework = "Jest" <;> by_cases h4 : testingFramework = "Mocha" <;>
    simp [h1, h2, h3, h4, Instr.argv?]

/-- Claim C8 as stated fails: when the testing-framework prompt of
`create-flask-skeleton` returns an error, the run still writes nine files and prints the
success messages. -/
theorem flask_continues_after_aborted_prompt :
    stdoutOf (issued aborted (Flask.run aborted))
        = ["Testing framework \x27\x27 set up successfully in \x27proj/tests\x27.\n",
           "Flask skeleton project \x27proj\x27 created successfully!\n"]
    ∧ (writesOf (issued aborted (Flask.run aborted))).length = 9 := by
  decide

/-- Claim C8, amended: `create-flask-skeleton`, `create-fastapi-skeleton` and
`create-react-skeleton` never look at the error of a prompt: the run is the scaffolding
applied to the texts the prompts returned.  `clone-repo` stops at the first prompt that
returns an error: the trace gains only the prompts asked and the fatal log line, so
nothing is cloned, nothing is written and no success message is printed. -/
theorem prompt_errors_stop_only_clone_repo (w : World) (rest : List Answer) :
    (∀ a b : Answer,
      Flask.run { w with answers := a :: b :: rest }
        = Flask.scaffold a.value b.value
            (({ w with answers := rest }.emit (.prompt "Project Name")).emit
              (.prompt "Choose a testing framework")))
    ∧ (∀ a b : Answer,
      FastAPI.run { w with answers := a :: b :: rest }
        = FastAPI.scaffold a.value b.value
            (({ w with answers := rest }.emit (.prompt "Project Name")).emit
              (.prompt "Choose a testing framework")))
    ∧ (∀ a b c d e : Answer,
      React.run { w with answers := a :: b :: c :: d :: e :: rest }
        = CreateReactApp a.value b.value c.value d.value e.value
            ((((({ w with answers := rest }.emit (.prompt "Project Name")).emit
              (.prompt "Do you want to include Tailwind CSS?")).emit
              (.prompt "Do you want to include Linting (ESLint)?")).emit
              (.prompt "Choose a testing framework")).emit
              (.prompt "Do you want to use TypeScript?")))
    ∧ (∀ (OllamaRepo GoRepo : String) (i : Nat) (v err : String),
      Clone.run OllamaRepo GoRepo { w with answers := ⟨i, v, some err⟩ :: rest }
        = { w with answers := rest,
                   trace := w.trace ++ [.prompt "Select Repository to Clone",
                     .fatal ("Repository selection failed: " ++ err)] })
    ∧ (∀ (OllamaRepo GoRepo : String) (i : Fin 2) (v : String) (j : Nat) (v' err : String),
      Clone.run OllamaRepo GoRepo
          { w with answers := ⟨i.val, v, none⟩ :: ⟨j, v', some err⟩ :: rest }
        = { w with answers := rest,
                   trace := w.trace ++ [.prompt "Select Repository to Clone",
                     .prompt "Enter Folder Name",
                     .fatal ("Folder name input failed: " ++ err)] }) := by
  refine ⟨fun _ _ => rfl, fun _ _ => rfl, fun _ _ _ _ _ => rfl, fun _ _ _ _ _ => ?_,
    fun _ _ i _ _ _ _ => ?_⟩
  · simp [Clone.run, PromptRepositorySelection, selectRun, promptRun, logFatal, World.emit]
  · match i with
    | ⟨0, _⟩ =>
      simp [Clone.run, PromptRepositorySelection, selectRun, promptRun, logFatal, World.emit]
    | ⟨1, _⟩ =>
      simp [Clone.run, PromptRepositorySelection, selectRun, promptRun, logFatal, World.emit]

/-! ## An unrecognised testing framework -/

theorem testPlan_other (T : Templates) (p fw : String)
    (h1 : fw ≠ "None") (h2 : fw ≠ "pytest") (h3 : fw ≠ "unittest") :
    testPlan T p fw =
      [.mkdir (joinPath p "tests"),
       .write (joinPath p "tests/__init__.py") "",
       .print ("Testing framework \x27" ++ fw ++ "\x27 set up successfully in \x27" ++ p
         ++ "/tests\x27.\n")] := by
  have e6 := joinPath_tests p "__init__.py" (by decide)
  simp only [testPlan, h1, h2, h3, if_false, e6]
  rfl

theorem fullPlan_other (T : Templates) (p fw : String)
    (h1 : fw ≠ "None") (h2 : fw ≠ "pytest") (h3 : fw ≠ "unittest") :
    fullPlan T p fw =
      [.mkdir p,
       .mkdir (joinPath p "app"),
       .write (joinPath p "app/__init__.py") "",
       .write (joinPath p "app/main.py") T.mainPy,
       .write (joinPath p "app/models.py") T.models,
       .write (joinPath p "app/schemas.py") T.schemas,
       .write (joinPath p "app/routes.py") T.routes,
       .write (joinPath p "requirements.txt") T.requirements,
       .write (joinPath p "Dockerfile") T.dockerfile,
       .write (joinPath p ".gitignore") T.gitignore,
       .mkdir (joinPath p "tests"),
       .write (joinPath p "tests/__init__.py") "",
       .print ("Testing framework \x27" ++ fw ++ "\x27 set up successfully in \x27" ++ p
         ++ "/tests\x27.\n"),
       .print (T.label ++ " skeleton project \x27" ++ p ++ "\x27 created successfully!\n")] := by
  have e1 := joinPath_app p "__init__.py" (by decide)
  have e2 := joinPath_app p "main.py" (by decide)
  have e3 := joinPath_app p "models.py" (by decide)
  have e4 := joinPath_app p "schemas.py" (by decide)
  have e5 := joinPath_app p "routes.py" (by decide)
  rw [fullPlan, testPlan_other T p fw h1 h2 h3]
  simp only [basePlan, donePlan, e1, e2, e3, e4, e5]
  rfl

theorem relWrites_other (T : Templates) (fw : String)
    (h1 : fw ≠ "None") (h2 : fw ≠ "pytest") (h3 : fw ≠ "unittest") :
    relWrites T fw = relWrites T "None" ++ [("tests/__init__.py", "")] := by
  simp only [relWrites, h1, h2, h3, if_false]
  rfl

theorem joinPath_ne_self (a r : String) (h : relClean r = true) : joinPath a r ≠ a := by
  intro e
  have hk := kept_joinPath a r h
  rw [e] at hk
  have hl := congrArg List.length hk
  simp only [List.length_append, List.length_reverse] at hl
  have : splitSlash r.data ≠ [] := splitSep_ne_nil '/' r.data
  have : 0 < (splitSlash r.data).length := List.length_pos.2 this
  omega

theorem relWrites_other_explicit (T : Templates) (fw : String)
    (h1 : fw ≠ "None") (h2 : fw ≠ "pytest") (h3 : fw ≠ "unittest") :
    relWrites T fw =
      [("app/__init__.py", ""), ("app/main.py", T.mainPy), ("app/models.py", T.models),
       ("app/schemas.py", T.schemas), ("app/routes.py", T.routes),
       ("requirements.txt", T.requirements), ("Dockerfile", T.dockerfile),
       (".gitignore", T.gitignore), ("tests/__init__.py", "")] := by
  rw [relWrites_other T fw h1 h2 h3]
  rfl

/-- A relative path is written with a content exactly when the pair is a relative write. -/
theorem mem_writes_rel (s : Stack) (p fw : String) (w : World) (hroot : mkdirErr p w = none)
    (r c : String) (hr : relClean r = true) :
    (joinPath p r, c) ∈ writesOf (issued w (scaffoldOf s p fw w))
      ↔ (r, c) ∈ relWrites (templatesOf s) fw := by
  rw [writesOf_issued_ok s p fw w hroot, List.mem_map]
  constructor
  · rintro ⟨rc, hrc, heq⟩
    have hp := (Prod.mk.inj heq).1
    have hc := (Prod.mk.inj heq).2
    have := joinPath_inj p rc.1 r (relWrites_clean _ _ rc hrc) hr hp
    rw [← this, ← hc]
    exact hrc
  · intro h
    exact ⟨(r, c), h, rfl⟩

/-- Claim C11: for both skeleton commands, once the project root is created, a testing
framework that is none of `None`, `pytest` and `unittest` (the empty text of an aborted
selection, `Pytest`, ...) makes the run attempt, after the operations of the `None` run,
exactly the creation of `tests` and the write of an empty `tests/__init__.py`.  No
`tests/test_main.py` is written and that path is left as it was.  No path is written
twice, and `requirements.txt` is written with the base content and nothing else.  The
run prints that the testing framework was set up successfully and then the closing
message.  When every operation succeeds, `tests` is a directory, `tests/__init__.py` is
empty and `requirements.txt` holds the base content. -/
theorem unknown_framework_still_sets_up_tests (s : Stack) (projectName testingFramework : String)
    (w : World) (hroot : mkdirErr projectName w = none)
    (h1 : testingFramework ≠ "None") (h2 : testingFramework ≠ "pytest")
    (h3 : testingFramework ≠ "unittest") :
    fsOpsOf (issued w (scaffoldOf s projectName testingFramework w))
      = fsOpsOf (issued w (scaffoldOf s projectName "None" w))
        ++ [.mkdir (joinPath projectName "tests"),
            .write (joinPath projectName "tests/__init__.py") ""]
    ∧ (∀ c, (joinPath projectName "tests/test_main.py", c)
        ∉ writesOf (issued w (scaffoldOf s projectName testingFramework w)))
    ∧ (scaffoldOf s projectName testingFramework w).fs
          (joinPath projectName "tests/test_main.py")
        = w.fs (joinPath projectName "tests/test_main.py")
    ∧ ((writesOf (issued w (scaffoldOf s projectName testingFramework w))).map Prod.fst).Nodup
    ∧ (∀ c, (joinPath projectName "requirements.txt", c)
          ∈ writesOf (issued w (scaffoldOf s projectName testingFramework w))
        ↔ c = (templatesOf s).requirements)
    ∧ stdoutOf (issued w (scaffoldOf s projectName testingFramework w))
        = ["Testing framework \x27" ++ testingFramework ++ "\x27 set up successfully in \x27"
            ++ projectName ++ "/tests\x27.\n",
           (templatesOf s).label ++ " skeleton project \x27" ++ projectName
            ++ "\x27 created successfully!\n"]
    ∧ ((∀ e ∈ issued w (scaffoldOf s projectName testingFramework w), e.succeeded = true) →
        (scaffoldOf s projectName testingFramework w).fs (joinPath projectName "tests")
          = some .dir
        ∧ (scaffoldOf s projectName testingFramework w).fs
            (joinPath projectName "tests/__init__.py") = some (.file "")
        ∧ (scaffoldOf s projectName testingFramework w).fs
            (joinPath projectName "requirements.txt")
          = some (.file (templatesOf s).requirements)) := by
  have hexp := relWrites_other_explicit (templatesOf s) testingFramework h1 h2 h3
  refine ⟨?_, ?_, ?_, ?_, ?_, ?_, ?_⟩
  · rw [fsOpsOf_issued_ok s _ _ w hroot, fsOpsOf_issued_ok s _ _ w hroot, fsOps_fullPlan,
      testPlan_other _ _ _ h1 h2 h3]
    rfl
  · intro c hc
    rw [mem_writes_rel s _ _ w hroot _ _ (by decide), hexp] at hc
    simp only [List.mem_cons, List.mem_singleton, List.not_mem_nil, or_false,
      Prod.mk.injEq] at hc
    rcases hc with h | h | h | h | h | h | h | h | h <;> exact absurd h.1 (by decide)
  · rw [scaffoldOf_eq, skeleton_root_ok _ _ _ _ hroot, fullPlan_other _ _ _ h1 h2 h3]
    apply runAll_fs_frame
    intro i hi
    simp only [List.mem_cons, List.mem_singleton, List.not_mem_nil, or_false] at hi
    have hself := joinPath_ne_self projectName "tests/test_main.py" (by decide)
    rcases hi with rfl | rfl | rfl | rfl | rfl | rfl | rfl | rfl | rfl | rfl | rfl | rfl
        | rfl | rfl <;>
      first
        | (simp only [Instr.path?, ne_eq, Option.some.injEq]; exact fun e => hself e.symm)
        | (simp (disch := decide) only [Instr.path?, ne_eq, Option.some.injEq,
            joinPath_eq_iff, not_false_eq_true, reduceCtorEq] <;> decide)
  · have hnames : (relWrites (templatesOf s) testingFramework).map Prod.fst
        = ["app/__init__.py", "app/main.py", "app/models.py", "app/schemas.py",
           "app/routes.py", "requirements.txt", "Dockerfile", ".gitignore",
           "tests/__init__.py"] := by
      rw [hexp]; rfl
    have hf : (Prod.fst ∘ fun rc : String × String => (joinPath projectName rc.1, rc.2))
        = joinPath projectName ∘ Prod.fst := rfl
    rw [writesOf_issued_ok s _ _ w hroot, List.map_map, hf, ← List.map_map, hnames]
    have hclean : ∀ x ∈ ["app/__init__.py", "app/main.py", "app/models.py", "app/schemas.py",
        "app/routes.py", "requirements.txt", "Dockerfile", ".gitignore",
        "tests/__init__.py"], relClean x = true := by decide
    exact List.Nodup.map_on
      (fun x hx y hy hxy => joinPath_inj projectName x y (hclean x hx) (hclean y hy) hxy)
      (by decide)
  · intro c
    rw [mem_writes_rel s _ _ w hroot _ _ (by decide), hexp]
    simp only [List.mem_cons, List.mem_singleton, List.not_mem_nil, or_false, Prod.mk.injEq]
    constructor
    · intro hc
      rcases hc with h | h | h | h | h | h | h | h | h <;>
        first
          | exact h.2
          | exact absurd h.1 (by decide)
    · intro hc
      exact Or.inr (Or.inr (Or.inr (Or.inr (Or.inr (Or.inl ⟨trivial, hc⟩)))))
  · rw [stdoutOf_issued_ok s _ _ w hroot, fullPlan_other _ _ _ h1 h2 h3]
    rfl
  · intro hok
    rw [issued_scaffold_ok s _ _ w hroot] at hok
    rw [scaffoldOf_eq, skeleton_root_ok _ _ _ _ hroot, runAll_fs_ok _ _ hok,
      fullPlan_other _ _ _ h1 h2 h3]
    refine ⟨?_, ?_, ?_⟩
    · refine foldl_apply_at _ 10 _ _ _ rfl rfl ?_
      simp (disch := decide) only [List.drop_succ_cons, List.drop_zero, List.mem_cons,
        List.mem_singleton, forall_eq_or_imp, forall_eq, Instr.path?, ne_eq,
        Option.some.injEq, joinPath_eq_iff, not_false_eq_true, and_true, List.not_mem_nil,
        false_implies, implies_true, reduceCtorEq]
      try decide
    · refine foldl_apply_at _ 11 _ _ _ rfl rfl ?_
      simp (disch := decide) only [List.drop_succ_cons, List.drop_zero, List.mem_cons,
        List.mem_singleton, forall_eq_or_imp, forall_eq, Instr.path?, ne_eq,
        Option.some.injEq, joinPath_eq_iff, not_false_eq_true, and_true, List.not_mem_nil,
        false_implies, implies_true, reduceCtorEq]
      try decide
    · refine foldl_apply_at _ 7 _ _ _ rfl rfl ?_
      simp (disch := decide) only [List.drop_succ_cons, List.drop_zero, List.mem_cons,
        List.mem_singleton, forall_eq_or_imp, forall_eq, Instr.path?, ne_eq,
        Option.some.injEq, joinPath_eq_iff, not_false_eq_true, and_true, List.not_mem_nil,
        false_implies, implies_true, reduceCtorEq]
      try decide

/-- Claim C11 for the Flask project `proj` with the empty text of an aborted selection,
and for the FastAPI project `proj` with `Pytest`. -/
theorem unknown_framework_still_sets_up_tests_witness :
    (mkdirErr "proj" blank = none ∧ "" ≠ "None" ∧ "" ≠ "pytest" ∧ "" ≠ "unittest"
      ∧ (∀ e ∈ issued blank (scaffoldOf .flask "proj" "" blank), e.succeeded = true)
      ∧ stdoutOf (issued blank (scaffoldOf .flask "proj" "" blank))
          = ["Testing framework \x27\x27 set up successfully in \x27proj/tests\x27.\n",
             "Flask skeleton project \x27proj\x27 created successfully!\n"]
      ∧ (scaffoldOf .flask "proj" "" blank).fs "proj/tests" = some .dir
      ∧ (scaffoldOf .flask "proj" "" blank).fs "proj/tests/__init__.py" = some (.file "")
      ∧ (scaffoldOf .flask "proj" "" blank).fs "proj/requirements.txt"
          = some (.file "flask\n")
      ∧ (scaffoldOf .flask "proj" "" blank).fs "proj/tests/test_main.py" = none)
    ∧ ("Pytest" ≠ "None" ∧ "Pytest" ≠ "pytest" ∧ "Pytest" ≠ "unittest"
      ∧ stdoutOf (issued blank (scaffoldOf .fastapi "proj" "Pytest" blank))
          = ["Testing framework \x27Pytest\x27 set up successfully in \x27proj/tests\x27.\n",
             "FastAPI skeleton project \x27proj\x27 created successfully!\n"]) :=
  have h := unknown_framework_still_sets_up_tests .flask "proj" "" blank
    (by decide) (by decide) (by decide) (by decide)
  have h' := unknown_framework_still_sets_up_tests .fastapi "proj" "Pytest" blank
    (by decide) (by decide) (by decide) (by decide)
  ⟨⟨by decide, by decide, by decide, by decide, by decide, h.2.2.2.2.2.1,
      (h.2.2.2.2.2.2 (by decide)).1, (h.2.2.2.2.2.2 (by decide)).2.1,
      (h.2.2.2.2.2.2 (by decide)).2.2, h.2.2.1⟩,
    ⟨by decide, by decide, by decide, h'.2.2.2.2.2.1⟩⟩

end Infocusp
